import Mathlib

/-!
# RTCP control plane of uvgRTP: participant table and reception statistics

A shallow embedding of `src/include/rtcp.hh` and `src/src/rtcp.cc`.

* Machine integers are natural numbers (or integers for `int`) reduced
  explicitly modulo `2^16`, `2^32` or `2^64` where the C++ code stores them.
* The session object (`class rtcp`) is a record that every member function
  receives and returns (explicit state passing).
* `std::map<uint32_t, rtcp_participant *>` is a partial function from SSRC to
  participant; every participant object is owned by exactly one map entry or
  one slot of the pending vector, so pointers are modelled by value.
* Code that lives outside the three source files (the clock, the frame
  declarations, the per-type RTCP handlers) enters as parameters.
-/

namespace uvg_rtp

/-! ## Constants (rtcp.hh 24-28, rtcp.cc 17-18) -/

/-- const int RTP_SEQ_MOD = 1 << 16 -/
def RTP_SEQ_MOD : Nat := 1 <<< 16

/-- const int MIN_SEQUENTIAL = 2 -/
def MIN_SEQUENTIAL : Int := 2

/-- const int MAX_DROPOUT = 3000 -/
def MAX_DROPOUT : Nat := 3000

/-- const int MAX_MISORDER = 100 -/
def MAX_MISORDER : Nat := 100

/-- const int MIN_TIMEOUT = 5000 -/
def MIN_TIMEOUT : Nat := 5000

/-- define UDP_HEADER_SIZE 8 -/
def UDP_HEADER_SIZE : Nat := 8

/-- define IP_HEADER_SIZE 20 -/
def IP_HEADER_SIZE : Nat := 20

/-- Range of `uint16_t`. -/
def U16 : Nat := 2 ^ 16

/-- Range of `uint32_t`. -/
def U32 : Nat := 2 ^ 32

/-- Range of `uint64_t` and of `size_t`. -/
def U64 : Nat := 2 ^ 64

/-- Conversion of an integer value to `uint32_t` (reduction modulo 2^32). -/
def to_u32 (x : Int) : Nat := (x % (U32 : Int)).toNat

/-- Conversion of an integer value to a 32-bit `int` (two's complement). -/
def to_i32 (x : Int) : Int := (x + 2 ^ 31) % (U32 : Int) - 2 ^ 31

/-! ## Types declared outside the source files -/

/-- Modelled from the spec: `util.hh` with `rtp_error_t` is not among the source
files; these are the error codes the spec lists in its section 6 ("Error codes
surfaced"), under the names rtcp.cc uses for them. -/
inductive rtp_error_t where
  | RTP_OK
  | RTP_INVALID_VALUE
  | RTP_MEMORY_ERROR
  | RTP_SEND_ERROR
  | RTP_NOT_FOUND
  | RTP_SSRC_COLLISION
  | RTP_GENERIC_ERROR
  | RTP_PKT_NOT_HANDLED
  deriving DecidableEq

open rtp_error_t

/-- enum ROLE of rtcp.hh 18-21. -/
inductive ROLE where
  | RECEIVER
  | SENDER
  deriving DecidableEq

/-- Modelled from the spec: `frame.hh` is not among the source files; section
4.2 of the spec gives the packet types SR=200. -/
def RTCP_FT_SR : Nat := 200

/-- Modelled from the spec: `frame.hh` is not among the source files; RR=201. -/
def RTCP_FT_RR : Nat := 201

/-- Modelled from the spec: `frame.hh` is not among the source files; SDES=202. -/
def RTCP_FT_SDES : Nat := 202

/-- Modelled from the spec: `frame.hh` is not among the source files; BYE=203. -/
def RTCP_FT_BYE : Nat := 203

/-- Modelled from the spec: `frame.hh` is not among the source files; APP=204. -/
def RTCP_FT_APP : Nat := 204

/-- Modelled from the spec: `frame.hh` is not among the source files; the common
RTCP header of section 4.2: version (2 bits), padding (1), report count (5),
packet type (8), length (16). The fields are the values the C++ code reads
through `header->version`, `header->padding` and `header->pkt_type`. -/
structure rtcp_header where
  version : Nat
  padding : Nat
  count : Nat
  pkt_type : Nat
  length : Nat
  deriving DecidableEq

/-- A received RTCP datagram: the header the code reads at its start, and the
bytes that follow it. -/
structure rtcp_buffer where
  header : rtcp_header
  payload : List Nat
  deriving DecidableEq

/-- Modelled from the spec: `frame.hh` is not among the source files; the fields
of an RTP frame that rtcp.cc reads (`header.ssrc`, `header.seq`,
`header.timestamp`, `payload_len`). -/
structure rtp_frame where
  ssrc : Nat
  seq : Nat
  timestamp : Nat
  payload_len : Nat
  deriving DecidableEq

/-- The system type `in_addr`. -/
structure in_addr where
  s_addr : Nat
  deriving DecidableEq

/-- The system type `sockaddr_in`. -/
structure sockaddr_in where
  sin_family : Nat
  sin_port : Nat
  sin_addr : in_addr
  deriving DecidableEq

/-- Modelled from the spec: `socket.hh` is not among the source files; a socket
is identified by its raw descriptor and carries the port it is bound to. -/
structure socket where
  raw : Nat
  bound_port : Nat
  deriving DecidableEq

/-! ## Data model (rtcp.hh 30-71, 251-320) -/

/-- struct rtcp_statistics (rtcp.hh 30-55). Every field holds a value of its
C++ type: `uint32_t` fields are below 2^32, `uint16_t` fields below 2^16. -/
structure rtcp_statistics where
  received_pkts : Nat
  dropped_pkts : Nat
  received_bytes : Nat
  sent_pkts : Nat
  sent_bytes : Nat
  jitter : Nat
  transit : Nat
  initial_ntp : Nat
  initial_rtp : Nat
  clock_rate : Nat
  lsr : Nat
  sr_ts : Nat
  max_seq : Nat
  base_seq : Nat
  bad_seq : Nat
  cycles : Nat
  deriving DecidableEq

/-- struct rtcp_participant (rtcp.hh 57-71). The four cached frames are
pointers, `none` being `nullptr`. -/
structure rtcp_participant where
  socket : Option socket
  address : sockaddr_in
  stats : rtcp_statistics
  probation : Int
  role : ROLE
  s_frame : Option rtcp_buffer
  r_frame : Option rtcp_buffer
  sdes_frame : Option rtcp_buffer
  app_frame : Option rtcp_buffer
  deriving DecidableEq

/-- The member variables of class rtcp (rtcp.hh 251-320); `active_` and
`runner_` are inherited from `runner`, and `runner_` is true when it points to a
thread object (false is `nullptr`). -/
structure rtcp where
  our_role_ : ROLE
  tp_ : Nat
  tc_ : Nat
  tn_ : Nat
  pmembers_ : Nat
  members_ : Nat
  senders_ : Nat
  rtcp_bandwidth_ : Nat
  we_sent_ : Bool
  avg_rtcp_pkt_pize_ : Nat
  rtcp_pkt_count_ : Nat
  rtcp_byte_count_ : Nat
  initial_ : Bool
  ssrc_ : Nat
  clock_start_ : Nat
  clock_rate_ : Nat
  rtp_ts_start_ : Nat
  participants_ : Nat → Option rtcp_participant
  num_receivers_ : Nat
  our_stats : rtcp_statistics
  initial_participants_ : List rtcp_participant
  sockets_ : List socket
  active_ : Bool
  runner_ : Bool

/-- What a call of `packet_handler` takes from outside the session: the reading
of `uvg_rtp::clock::ntp::now()`, the function `uvg_rtp::clock::ntp::diff_now`
(milliseconds elapsed since its argument, a `uint64_t`) and the contents of the
object that `new rtcp_participant` returns, which C++ leaves uninitialised. -/
structure environment where
  ntp_now : Nat
  diff_now : Nat → Nat
  fresh : rtcp_participant

/-- The per-type handlers that `handle_incoming_packet` calls. They are declared
in rtcp.hh 101-105 and defined outside the source files, so they are
parameters: each takes the session, the buffer and its size and returns a
status and the session it leaves. -/
structure rtcp_handlers where
  handle_sender_report_packet : rtcp → rtcp_buffer → Nat → rtp_error_t × rtcp
  handle_receiver_report_packet : rtcp → rtcp_buffer → Nat → rtp_error_t × rtcp
  handle_sdes_packet : rtcp → rtcp_buffer → Nat → rtp_error_t × rtcp
  handle_bye_packet : rtcp → rtcp_buffer → Nat → rtp_error_t × rtcp
  handle_app_packet : rtcp → rtcp_buffer → Nat → rtp_error_t × rtcp

/-- Modelled from the spec: `socket.hh` is not among the source files. What the
socket layer returns to one call of add_participant(dst_addr, dst_port,
src_port, clock_rate): the object made by `new uvg_rtp::socket`, the status of
`init`, of the two `setsockopt` calls (SO_REUSEADDR, SO_RCVTIMEO) and of `bind`,
and the function `create_sockaddr(AF_INET, dst_addr, dst_port)`. By section 4.3
of the spec a successful `bind` leaves the socket bound to `src_port`. -/
structure socket_calls where
  created : socket
  init_status : rtp_error_t
  reuseaddr_status : rtp_error_t
  rcvtimeo_status : rtp_error_t
  bind_status : rtp_error_t
  create_sockaddr : String → Nat → sockaddr_in

/-! ## Operations of rtcp.cc -/

/-- zero_stats (rtcp.cc 183-204): every field but `sr_ts` is set to zero. -/
def zero_stats (stats : rtcp_statistics) : rtcp_statistics :=
  { stats with
    received_pkts := 0, dropped_pkts := 0, received_bytes := 0,
    sent_pkts := 0, sent_bytes := 0,
    jitter := 0, transit := 0,
    initial_ntp := 0, initial_rtp := 0, clock_rate := 0, lsr := 0,
    max_seq := 0, base_seq := 0, bad_seq := 0, cycles := 0 }

/-- The constructor rtcp::rtcp(uvg_rtp::rtp *) (rtcp.cc 20-35), named `ctor`
because the record already has the name of the class. `ssrc` and
`clock_rate` are what `rtp->get_ssrc()` and `rtp->get_clock_rate()` return;
`garbage` is the content of the members the constructor does not initialise
(`rtcp_byte_count_`, `our_stats.sr_ts`, `active_`). -/
def rtcp.ctor (ssrc clock_rate : Nat) (garbage : rtcp) : rtcp :=
  { our_role_ := ROLE.RECEIVER,
    tp_ := 0, tc_ := 0, tn_ := 0, pmembers_ := 0,
    members_ := 0, senders_ := 0, rtcp_bandwidth_ := 0,
    we_sent_ := false, avg_rtcp_pkt_pize_ := 0, rtcp_pkt_count_ := 0,
    rtcp_byte_count_ := garbage.rtcp_byte_count_,
    initial_ := true, num_receivers_ := 0,
    ssrc_ := ssrc, clock_rate_ := clock_rate,
    clock_start_ := 0, rtp_ts_start_ := 0,
    participants_ := fun _ => none,
    our_stats := zero_stats garbage.our_stats,
    initial_participants_ := [],
    sockets_ := [],
    active_ := garbage.active_,
    runner_ := false }

/-- Assignment through `participants_[ssrc]`: the entry of `ssrc` becomes `p`,
every other entry stays. -/
def rtcp.set_participant (self : rtcp) (ssrc : Nat) (p : rtcp_participant) : rtcp :=
  { self with participants_ := fun k => if k = ssrc then some p else self.participants_ k }

/-- is_participant (rtcp.cc 206-209). -/
def rtcp.is_participant (self : rtcp) (ssrc : Nat) : Bool :=
  (self.participants_ ssrc).isSome

/-- start (rtcp.cc 41-57). `new std::thread` throws instead of returning a null
pointer, so the RTP_MEMORY_ERROR return is never taken; the thread itself is
not modelled. -/
def rtcp.start (self : rtcp) : rtp_error_t × rtcp :=
  if self.sockets_.isEmpty then (RTP_INVALID_VALUE, self)
  else (RTP_OK, { self with active_ := true, runner_ := true })

/-- terminate_self (rtcp.cc 316-330). `send_bye_packet` is declared in rtcp.hh
123 and defined outside the source files, so it is a parameter: it takes the
session and the SSRC list of the BYE frame. -/
def rtcp.terminate_self (self : rtcp)
    (send_bye_packet : rtcp → List Nat → rtp_error_t × rtcp) : rtp_error_t × rtcp :=
  send_bye_packet self [self.ssrc_]

/-- stop (rtcp.cc 59-91). The loop at `free_mem` deletes the participant objects
and their sockets and leaves the entries of `participants_` in place; the model
keeps the table as it is. -/
def rtcp.stop (self : rtcp)
    (send_bye_packet : rtcp → List Nat → rtp_error_t × rtcp) : rtp_error_t × rtcp :=
  if ¬ self.runner_ then (RTP_OK, self)
  else if self.members_ < 50 then
    (RTP_OK, (rtcp.terminate_self { self with active_ := false } send_bye_packet).2)
  else
    (RTP_OK, (rtcp.terminate_self
      { self with
        tp_ := self.tc_, members_ := 1, pmembers_ := 1, initial_ := true, we_sent_ := false,
        senders_ := 0, active_ := false } send_bye_packet).2)

/-- add_participant(std::string, uint16_t, uint16_t, uint32_t) (rtcp.cc 93-152),
outside Windows. `fresh` is the object that `new rtcp_participant` returns and
`io` what the socket layer answers. When a socket call fails the function
returns its status with the session untouched. -/
def rtcp.add_participant (self : rtcp) (fresh : rtcp_participant) (io : socket_calls)
    (dst_addr : String) (dst_port src_port clock_rate : Nat) : rtp_error_t × rtcp :=
  if dst_addr = "" ∨ dst_port = 0 ∨ src_port = 0 then (RTP_INVALID_VALUE, self) else
  let p0 := { fresh with stats := zero_stats fresh.stats }
  if io.init_status ≠ RTP_OK then (io.init_status, self) else
  if io.reuseaddr_status ≠ RTP_OK then (io.reuseaddr_status, self) else
  if io.rcvtimeo_status ≠ RTP_OK then (io.rcvtimeo_status, self) else
  if io.bind_status ≠ RTP_OK then (io.bind_status, self) else
  let sock : socket := { io.created with bound_port := src_port }
  let p1 := { p0 with
    socket := some sock,
    role := ROLE.RECEIVER,
    address := io.create_sockaddr dst_addr dst_port,
    stats := { p0.stats with clock_rate := clock_rate } }
  (RTP_OK,
    { self with
      initial_participants_ := self.initial_participants_ ++ [p1],
      sockets_ := self.sockets_ ++ [sock] })

/-- add_participant(uint32_t) (rtcp.cc 154-174). `fresh` is the object that
`new rtcp_participant` returns. `new` throws instead of returning a null
pointer, so the RTP_MEMORY_ERROR return is never taken. -/
def rtcp.add_participant_ssrc (self : rtcp) (fresh : rtcp_participant) (ssrc : Nat) :
    rtp_error_t × rtcp :=
  let moved : rtcp_participant × List rtcp_participant :=
    match self.initial_participants_.getLast? with
    | none => ({ fresh with stats := zero_stats fresh.stats }, self.initial_participants_)
    | some p => (p, self.initial_participants_.dropLast)
  let p := { moved.1 with r_frame := none, s_frame := none, sdes_frame := none, app_frame := none }
  (RTP_OK,
    { (self.set_participant ssrc p) with
      initial_participants_ := moved.2,
      num_receivers_ := (self.num_receivers_ + 1) % U64 })

/-- update_rtcp_bandwidth (rtcp.cc 176-181), in `size_t` arithmetic. -/
def rtcp.update_rtcp_bandwidth (self : rtcp) (pkt_size : Nat) : rtcp :=
  let pkt_count := (self.rtcp_pkt_count_ + 1) % U64
  let byte_count := (self.rtcp_byte_count_ + (pkt_size + UDP_HEADER_SIZE + IP_HEADER_SIZE)) % U64
  { self with
    rtcp_pkt_count_ := pkt_count,
    rtcp_byte_count_ := byte_count,
    avg_rtcp_pkt_pize_ := byte_count / pkt_count }

/-- init_participant_seq (rtcp.cc 254-264). The stored `bad_seq` is
`(uint16_t)RTP_SEQ_MOD + 1` converted to `uint16_t`. -/
def rtcp.init_participant_seq (self : rtcp) (ssrc base_seq : Nat) : rtp_error_t × rtcp :=
  match self.participants_ ssrc with
  | none => (RTP_NOT_FOUND, self)
  | some p =>
    (RTP_OK, self.set_participant ssrc
      { p with stats := { p.stats with
          base_seq := base_seq,
          max_seq := base_seq,
          bad_seq := (RTP_SEQ_MOD % U16 + 1) % U16 } })

/-- sender_update_stats (rtcp.cc 218-226); `none` is a null frame pointer. -/
def rtcp.sender_update_stats (self : rtcp) (frame : Option rtp_frame) : rtcp :=
  match frame with
  | none => self
  | some f =>
    { self with our_stats := { self.our_stats with
        sent_pkts := (self.our_stats.sent_pkts + 1) % U32,
        sent_bytes := (self.our_stats.sent_bytes + f.payload_len) % U32,
        max_seq := f.seq % U16 } }

/-- init_new_participant (rtcp.cc 228-252). -/
def rtcp.init_new_participant (self : rtcp) (e : environment) (frame : rtp_frame) :
    rtp_error_t × rtcp :=
  let r1 := self.add_participant_ssrc e.fresh frame.ssrc
  if r1.1 ≠ RTP_OK then r1 else
  let r2 := r1.2.init_participant_seq frame.ssrc frame.seq
  if r2.1 ≠ RTP_OK then r2 else
  match r2.2.participants_ frame.ssrc with
  | none => r2
  | some p =>
    let p1 := { p with
      probation := MIN_SEQUENTIAL,
      stats := { p.stats with initial_rtp := frame.timestamp, initial_ntp := e.ntp_now } }
    let s3 := r2.2.set_participant frame.ssrc p1
    (r2.1, { s3 with senders_ := (s3.senders_ + 1) % U64 })

/-- update_participant_seq (rtcp.cc 266-314). `seq` is a `uint16_t`; `udelta` is
the 16-bit difference, the comparison `seq == max_seq + 1` is made on `int`
values, and `cycles += RTP_SEQ_MOD` is stored into the `uint16_t` field. -/
def rtcp.update_participant_seq (self : rtcp) (ssrc seq : Nat) : rtp_error_t × rtcp :=
  match self.participants_ ssrc with
  | none => (RTP_GENERIC_ERROR, self)
  | some p =>
    let udelta := (seq + U16 - p.stats.max_seq) % U16
    if p.probation ≠ 0 then
      if seq = p.stats.max_seq + 1 then
        let p1 := { p with probation := p.probation - 1, stats := { p.stats with max_seq := seq } }
        if p1.probation = 0 then
          (RTP_OK, ((self.set_participant ssrc p1).init_participant_seq ssrc seq).2)
        else
          (RTP_GENERIC_ERROR, self.set_participant ssrc p1)
      else
        (RTP_GENERIC_ERROR, self.set_participant ssrc
          { p with probation := MIN_SEQUENTIAL - 1, stats := { p.stats with max_seq := seq } })
    else if udelta < MAX_DROPOUT then
      let cycles := if seq < p.stats.max_seq then (p.stats.cycles + RTP_SEQ_MOD) % U16
                    else p.stats.cycles
      (RTP_OK, self.set_participant ssrc
        { p with stats := { p.stats with cycles := cycles, max_seq := seq } })
    else if udelta ≤ RTP_SEQ_MOD - MAX_MISORDER then
      if seq = p.stats.bad_seq then
        (RTP_OK, (self.init_participant_seq ssrc seq).2)
      else
        (RTP_GENERIC_ERROR, self.set_participant ssrc
          { p with stats := { p.stats with bad_seq := ((seq + 1) &&& (RTP_SEQ_MOD - 1)) % U16 } })
    else
      (RTP_OK, self)

/-- reset_rtcp_state (rtcp.cc 332-350). -/
def rtcp.reset_rtcp_state (self : rtcp) (ssrc : Nat) : rtp_error_t × rtcp :=
  if (self.participants_ ssrc).isSome then (RTP_SSRC_COLLISION, self) else
  (RTP_OK,
    { self with our_stats := { self.our_stats with
        received_pkts := 0, dropped_pkts := 0, received_bytes := 0,
        sent_pkts := 0, sent_bytes := 0,
        jitter := 0, transit := 0,
        max_seq := 0, base_seq := 0, bad_seq := 0, cycles := 0 } })

/-- collision_detected (rtcp.cc 352-364). -/
def rtcp.collision_detected (self : rtcp) (ssrc : Nat) (src_addr : sockaddr_in) : Bool :=
  match self.participants_ ssrc with
  | none => false
  | some sender =>
    if src_addr.sin_port ≠ sender.address.sin_port ∧
       src_addr.sin_addr.s_addr ≠ sender.address.sin_addr.s_addr then true
    else false

/-- The statistics update of update_session_statistics (rtcp.cc 370-390) on one
participant; `ms` is the value of `diff_now(p->stats.initial_ntp)`.

The jitter line works in `double`: `d` and the stored jitter are integers below
2^32, so `d - jitter`, its sixteenth and the sum `jitter + (d - jitter) / 16` are
exact in double precision; that sum is the fraction
`(16 * jitter + (d - jitter)) / 16`, and the compound assignment converts it back
to the `uint32_t` field by truncation towards zero (`Int.tdiv`). -/
def update_statistics (p : rtcp_participant) (ms : Nat) (frame : rtp_frame) : rtcp_participant :=
  let received_pkts := (p.stats.received_pkts + 1) % U32
  let received_bytes := (p.stats.received_bytes + frame.payload_len) % U32
  let extended_max : Int := (p.stats.cycles : Int) + p.stats.max_seq
  let expected : Int := extended_max - p.stats.base_seq + 1
  let dropped_pkts := to_u32 (expected - received_pkts)
  let arrival : Int :=
    to_i32 (((p.stats.initial_rtp + (ms * (p.stats.clock_rate / 1000)) % U64) % U64 : Nat) : Int)
  let transit : Int := to_i32 (arrival - frame.timestamp)
  let d : Int := |to_i32 (transit - p.stats.transit)|
  let jitter : Int := Int.tdiv (16 * (p.stats.jitter : Int) + (d - (p.stats.jitter : Int))) 16
  { p with stats := { p.stats with
      received_pkts := received_pkts,
      received_bytes := received_bytes,
      dropped_pkts := dropped_pkts,
      transit := to_u32 transit,
      jitter := to_u32 jitter } }

/-- The arrival time of rtcp.cc 379-383, the `int arrival` of
update_session_statistics, from the stored statistics and the elapsed
milliseconds `ms`: `initial_rtp + ms * (clock_rate / 1000)` in 64-bit unsigned
arithmetic with the integer division done first, then converted to `int`. -/
def arrival (stats : rtcp_statistics) (ms : Nat) : Int :=
  to_i32 (((stats.initial_rtp + (ms * (stats.clock_rate / 1000)) % U64) % U64 : Nat) : Int)

/-- The value `d` of rtcp.cc 386-387: the absolute difference between the
transit of this frame and the stored transit. -/
def transit_delta (p : rtcp_participant) (ms : Nat) (frame : rtp_frame) : Int :=
  |to_i32 (to_i32 (arrival p.stats ms - frame.timestamp) - p.stats.transit)|

/-- The participant after `update_session_statistics` has handled the given
frames one after the other, each with its elapsed milliseconds. -/
def run_statistics (p : rtcp_participant) : List (Nat × rtp_frame) → rtcp_participant
  | [] => p
  | (ms, frame) :: rest => run_statistics (update_statistics p ms frame) rest

/-- Every frame of the run has the transit of the frame before it: the value
`d` is 0 at each step. -/
def steady_transit (p : rtcp_participant) : List (Nat × rtp_frame) → Prop
  | [] => True
  | (ms, frame) :: rest =>
    transit_delta p ms frame = 0 ∧ steady_transit (update_statistics p ms frame) rest

/-- update_session_statistics (rtcp.cc 366-391). The C++ code dereferences
`participants_[ssrc]` without a check; its only caller `packet_handler` calls it
for a known SSRC, and the model leaves the session as it is for an unknown one. -/
def rtcp.update_session_statistics (self : rtcp) (e : environment) (frame : rtp_frame) : rtcp :=
  match self.participants_ frame.ssrc with
  | none => self
  | some p =>
    self.set_participant frame.ssrc (update_statistics p (e.diff_now p.stats.initial_ntp % U64) frame)

/-- packet_handler (rtcp.cc 401-428); `arg` is the session. -/
def rtcp.packet_handler (arg : rtcp) (e : environment) (_flags : Int) (frame : rtp_frame) :
    rtp_error_t × rtcp :=
  let r : rtp_error_t × rtcp :=
    if ¬ arg.is_participant frame.ssrc then arg.init_new_participant e frame
    else arg.update_participant_seq frame.ssrc frame.seq
  if r.1 ≠ RTP_OK then (RTP_GENERIC_ERROR, r.2)
  else (RTP_PKT_NOT_HANDLED, r.2.update_session_statistics e frame)

/-- handle_incoming_packet (rtcp.cc 430-483). -/
def rtcp.handle_incoming_packet (self : rtcp) (h : rtcp_handlers) (buffer : rtcp_buffer)
    (size : Nat) : rtp_error_t × rtcp :=
  let header := buffer.header
  if header.version ≠ 2 then (RTP_INVALID_VALUE, self) else
  if header.padding ≠ 0 then (RTP_INVALID_VALUE, self) else
  if header.pkt_type > RTCP_FT_BYE ∨ header.pkt_type < RTCP_FT_SR then (RTP_INVALID_VALUE, self) else
  let s1 := self.update_rtcp_bandwidth size
  if header.pkt_type = RTCP_FT_SR then h.handle_sender_report_packet s1 buffer size
  else if header.pkt_type = RTCP_FT_RR then h.handle_receiver_report_packet s1 buffer size
  else if header.pkt_type = RTCP_FT_SDES then h.handle_sdes_packet s1 buffer size
  else if header.pkt_type = RTCP_FT_BYE then h.handle_bye_packet s1 buffer size
  else if header.pkt_type = RTCP_FT_APP then h.handle_app_packet s1 buffer size
  else (RTP_INVALID_VALUE, s1)

/-! ## Runs and reachable sessions -/

/-- The session after `packet_handler` has processed the given frames one after
the other, each with its own clock readings. -/
def run_frames (s : rtcp) : List (environment × rtp_frame) → rtcp
  | [] => s
  | (e, frame) :: rest => run_frames (s.packet_handler e 0 frame).2 rest

/-- The expected-packet count of rtcp.cc 374-375 for the stored sequence state:
`extended_max - base_seq + 1` with `extended_max = cycles + max_seq`, as `int`. -/
def expected_pkts (stats : rtcp_statistics) : Int :=
  ((stats.cycles : Int) + stats.max_seq) - stats.base_seq + 1

/-- The five handlers, whose code is outside the source files, leave the member
and the sender estimate of the session as they find them. -/
def handlers_keep_estimates (h : rtcp_handlers) : Prop :=
  ∀ (s : rtcp) (b : rtcp_buffer) (n : Nat),
    ((h.handle_sender_report_packet s b n).2.members_ = s.members_ ∧
      (h.handle_sender_report_packet s b n).2.senders_ = s.senders_) ∧
    ((h.handle_receiver_report_packet s b n).2.members_ = s.members_ ∧
      (h.handle_receiver_report_packet s b n).2.senders_ = s.senders_) ∧
    ((h.handle_sdes_packet s b n).2.members_ = s.members_ ∧
      (h.handle_sdes_packet s b n).2.senders_ = s.senders_) ∧
    ((h.handle_bye_packet s b n).2.members_ = s.members_ ∧
      (h.handle_bye_packet s b n).2.senders_ = s.senders_) ∧
    ((h.handle_app_packet s b n).2.members_ = s.members_ ∧
      (h.handle_app_packet s b n).2.senders_ = s.senders_)

/-- The function `send_bye_packet`, whose code is outside the source files,
leaves the member and the sender estimate of the session as it finds them. -/
def bye_keeps_estimates (send_bye_packet : rtcp → List Nat → rtp_error_t × rtcp) : Prop :=
  ∀ (s : rtcp) (ssrcs : List Nat),
    (send_bye_packet s ssrcs).2.members_ = s.members_ ∧
    (send_bye_packet s ssrcs).2.senders_ = s.senders_

/-- The sessions reachable from a newly constructed one through start,
add_participant, packet_handler, handle_incoming_packet, reset_rtcp_state and
stop, for given handlers `h` and a given `send_bye_packet`. The number counts
the calls of `packet_handler` that promoted a new SSRC. -/
inductive reachable (h : rtcp_handlers)
    (send_bye_packet : rtcp → List Nat → rtp_error_t × rtcp) : Nat → rtcp → Prop where
  | constructed (ssrc clock_rate : Nat) (garbage : rtcp) :
      reachable h send_bye_packet 0 (rtcp.ctor ssrc clock_rate garbage)
  | started (n : Nat) (s : rtcp) :
      reachable h send_bye_packet n s → reachable h send_bye_packet n s.start.2
  | added (n : Nat) (s : rtcp) (fresh : rtcp_participant) (io : socket_calls)
      (dst_addr : String) (dst_port src_port clock_rate : Nat) :
      reachable h send_bye_packet n s →
      reachable h send_bye_packet n
        (s.add_participant fresh io dst_addr dst_port src_port clock_rate).2
  | frame_known (n : Nat) (s : rtcp) (e : environment) (fl : Int) (f : rtp_frame) :
      reachable h send_bye_packet n s → s.is_participant f.ssrc = true →
      reachable h send_bye_packet n (s.packet_handler e fl f).2
  | frame_new (n : Nat) (s : rtcp) (e : environment) (fl : Int) (f : rtp_frame) :
      reachable h send_bye_packet n s → s.is_participant f.ssrc = false →
      reachable h send_bye_packet (n + 1) (s.packet_handler e fl f).2
  | incoming (n : Nat) (s : rtcp) (buffer : rtcp_buffer) (size : Nat) :
      reachable h send_bye_packet n s →
      reachable h send_bye_packet n (s.handle_incoming_packet h buffer size).2
  | reset (n : Nat) (s : rtcp) (ssrc : Nat) :
      reachable h send_bye_packet n s →
      reachable h send_bye_packet n (s.reset_rtcp_state ssrc).2
  | stopped (n : Nat) (s : rtcp) :
      reachable h send_bye_packet n s →
      reachable h send_bye_packet n (s.stop send_bye_packet).2

/-! ## Concrete sessions used to evaluate the operations -/

/-- A statistics record with every field zero. -/
def blank_stats : rtcp_statistics :=
  { received_pkts := 0, dropped_pkts := 0, received_bytes := 0, sent_pkts := 0, sent_bytes := 0,
    jitter := 0, transit := 0, initial_ntp := 0, initial_rtp := 0, clock_rate := 0, lsr := 0,
    sr_ts := 0, max_seq := 0, base_seq := 0, bad_seq := 0, cycles := 0 }

/-- A participant object as `new rtcp_participant` may return it: no socket, a
zero address, arbitrary counters. -/
def blank_participant : rtcp_participant :=
  { socket := none,
    address := { sin_family := 2, sin_port := 0, sin_addr := { s_addr := 0 } },
    stats := { blank_stats with received_pkts := 7, cycles := 3, clock_rate := 8000 },
    probation := 5, role := ROLE.RECEIVER,
    s_frame := none, r_frame := none, sdes_frame := none, app_frame := none }

/-- Clock readings for the evaluations: NTP time 1000, and 20 ms elapsed since
any earlier reading. -/
def sample_environment : environment :=
  { ntp_now := 1000, diff_now := fun _ => 20, fresh := blank_participant }

/-- A newly constructed session with own SSRC 0x1111 and clock rate 90000. -/
def new_session : rtcp :=
  rtcp.ctor 0x1111 90000
    { our_role_ := ROLE.SENDER, tp_ := 0, tc_ := 0, tn_ := 0, pmembers_ := 0, members_ := 0,
      senders_ := 0, rtcp_bandwidth_ := 0, we_sent_ := false, avg_rtcp_pkt_pize_ := 0,
      rtcp_pkt_count_ := 0, rtcp_byte_count_ := 0, initial_ := false, ssrc_ := 0,
      clock_start_ := 0, clock_rate_ := 0, rtp_ts_start_ := 0,
      participants_ := fun _ => none, num_receivers_ := 0, our_stats := blank_stats,
      initial_participants_ := [], sockets_ := [], active_ := false, runner_ := true }

/-- A pending entry as add_participant("10.0.0.1", 5000, 6000, 90000) parks it:
zeroed statistics with the clock rate, role RECEIVER, the destination address
10.0.0.1:5000 and a socket bound to port 6000. -/
def pending_peer : rtcp_participant :=
  { socket := some { raw := 3, bound_port := 6000 },
    address := { sin_family := 2, sin_port := 5000, sin_addr := { s_addr := 0x0A000001 } },
    stats := { zero_stats blank_stats with clock_rate := 90000 },
    probation := 5, role := ROLE.RECEIVER,
    s_frame := none, r_frame := none, sdes_frame := none, app_frame := none }

/-- A new session in which one participant has been added and is pending. -/
def pending_session : rtcp :=
  { new_session with
    initial_participants_ := [pending_peer],
    sockets_ := [{ raw := 3, bound_port := 6000 }] }

/-- Handlers for the evaluations: each one returns RTP_OK and records its call
by storing its packet type in `rtcp_bandwidth_`. -/
def marking_handlers : rtcp_handlers :=
  { handle_sender_report_packet := fun s _ _ => (RTP_OK, { s with rtcp_bandwidth_ := 200 }),
    handle_receiver_report_packet := fun s _ _ => (RTP_OK, { s with rtcp_bandwidth_ := 201 }),
    handle_sdes_packet := fun s _ _ => (RTP_OK, { s with rtcp_bandwidth_ := 202 }),
    handle_bye_packet := fun s _ _ => (RTP_OK, { s with rtcp_bandwidth_ := 203 }),
    handle_app_packet := fun s _ _ => (RTP_OK, { s with rtcp_bandwidth_ := 204 }) }

/-- The session after `packet_handler` has processed, one after the other, RTP
frames of one SSRC with the given sequence numbers (timestamp 0, 160 bytes of
payload each), together with the status of each call. -/
def feed (s : rtcp) (e : environment) (ssrc : Nat) : List Nat → List rtp_error_t × rtcp
  | [] => ([], s)
  | seq :: rest =>
    let r := s.packet_handler e 0 { ssrc := ssrc, seq := seq, timestamp := 0, payload_len := 160 }
    let rs := feed r.2 e ssrc rest
    (r.1 :: rs.1, rs.2)

/-- The sequence state and counters of a participant that the scenarios look at:
probation, base_seq, max_seq, bad_seq, cycles, received_pkts, dropped_pkts. -/
def seq_view (s : rtcp) (ssrc : Nat) : Option (Int × Nat × Nat × Nat × Nat × Nat × Nat) :=
  (s.participants_ ssrc).map fun p =>
    (p.probation, p.stats.base_seq, p.stats.max_seq, p.stats.bad_seq, p.stats.cycles,
      p.stats.received_pkts, p.stats.dropped_pkts)

/-- The counters of a participant that `update_session_statistics` writes,
after its probation counter: probation, received_pkts, received_bytes,
dropped_pkts, jitter, transit. -/
def stats_view (s : rtcp) (ssrc : Nat) : Option (Int × Nat × Nat × Nat × Nat × Nat) :=
  (s.participants_ ssrc).map fun p =>
    (p.probation, p.stats.received_pkts, p.stats.received_bytes, p.stats.dropped_pkts,
      p.stats.jitter, p.stats.transit)

/-- The reception statistics of a participant, the five fields that
`update_session_statistics` writes: received_pkts, received_bytes, dropped_pkts,
jitter, transit; `none` for an unknown SSRC. -/
def reception_stats (s : rtcp) (ssrc : Nat) : Option (Nat × Nat × Nat × Nat × Nat) :=
  (s.participants_ ssrc).map fun p =>
    (p.stats.received_pkts, p.stats.received_bytes, p.stats.dropped_pkts, p.stats.jitter,
      p.stats.transit)

/-- A validated participant with stored jitter 3 and stored transit 1800: the
pending peer (clock rate 90000, initial_rtp 0) some frames after validation. -/
def settling_peer : rtcp_participant :=
  { pending_peer with
    probation := 0,
    stats := { pending_peer.stats with
      received_pkts := 40, received_bytes := 6400, jitter := 3, transit := 1800,
      initial_ntp := 1000, base_seq := 102, max_seq := 140, bad_seq := 1 } }

/-- A frame of SSRC 0xAA with timestamp 0 that arrives 20 ms after the first. -/
def steady_input : Nat × rtp_frame :=
  (20, { ssrc := 0xAA, seq := 141, timestamp := 0, payload_len := 160 })

/-- Answers of the socket layer when every call succeeds; the address made for
("10.0.0.1", port) is 10.0.0.1:port. -/
def working_sockets : socket_calls :=
  { created := { raw := 3, bound_port := 0 },
    init_status := RTP_OK, reuseaddr_status := RTP_OK, rcvtimeo_status := RTP_OK,
    bind_status := RTP_OK,
    create_sockaddr := fun _ port =>
      { sin_family := 2, sin_port := port, sin_addr := { s_addr := 0x0A000001 } } }

/-- The destination address of the evaluations. -/
def peer_address : String := "10.0.0.1"

/-- A new session after add_participant("10.0.0.1", 5000, 6000, 44100). -/
def audio_session : rtcp :=
  (new_session.add_participant blank_participant working_sockets peer_address 5000 6000 44100).2

/-- Clock readings one second after the first frame: NTP time 1000, and 1000 ms
elapsed since any earlier reading. -/
def one_second_later : environment :=
  { ntp_now := 1000, diff_now := fun _ => 1000, fresh := blank_participant }

/-- A `send_bye_packet` for the evaluations: it returns RTP_OK and leaves the
session as it is. -/
def quiet_bye (s : rtcp) (_ssrcs : List Nat) : rtp_error_t × rtcp := (RTP_OK, s)

/-- A sender report header (version 2, no padding, type 200) as the code finds it
at the start of a buffer. -/
def sr_buffer : rtcp_buffer :=
  { header := { version := 2, padding := 0, count := 0, pkt_type := 200, length := 6 },
    payload := [] }

/-- Frames of SSRC 0xAA with the given sequence numbers, each with the clock
readings of `sample_environment`, timestamp 0 and 160 bytes of payload. -/
def frames_of (seqs : List Nat) : List (environment × rtp_frame) :=
  seqs.map fun seq =>
    (sample_environment, { ssrc := 0xAA, seq := seq, timestamp := 0, payload_len := 160 })

/-! ## Basic facts about the table and the machine arithmetic -/

theorem RTP_SEQ_MOD_eq : RTP_SEQ_MOD = 65536 := by decide

theorem U16_eq : U16 = 65536 := by decide

theorem U32_eq : U32 = 4294967296 := by decide

theorem land_seq_mask (x : Nat) : x &&& (65536 - 1) = x % 65536 := by
  have h : 65536 - 1 = 2 ^ 16 - 1 := by decide
  rw [h, Nat.and_pow_two_sub_one_eq_mod]

@[simp] theorem set_participant_same (s : rtcp) (k : Nat) (p : rtcp_participant) :
    (s.set_participant k p).participants_ k = some p := by
  simp [rtcp.set_participant]

theorem set_participant_other (s : rtcp) (k j : Nat) (p : rtcp_participant) (h : j ≠ k) :
    (s.set_participant k p).participants_ j = s.participants_ j := by
  simp [rtcp.set_participant, h]

/-! ## Probation (rtcp.cc 228-252, 276-289) -/

/-- The first frame of an unknown SSRC is promoted: the call returns
RTP_PKT_NOT_HANDLED and leaves the participant on probation 2 with
`base_seq = max_seq = seq`. -/
theorem packet_handler_first_frame (s : rtcp) (e : environment) (fl : Int) (f : rtp_frame)
    (hnew : s.participants_ f.ssrc = none) :
    (s.packet_handler e fl f).1 = RTP_PKT_NOT_HANDLED ∧
    ∃ p, (s.packet_handler e fl f).2.participants_ f.ssrc = some p ∧
      p.probation = 2 ∧ p.stats.base_seq = f.seq ∧ p.stats.max_seq = f.seq := by
  cases hl : s.initial_participants_.getLast? <;>
  simp [rtcp.packet_handler, rtcp.is_participant, hnew, rtcp.init_new_participant,
    rtcp.add_participant_ssrc, rtcp.init_participant_seq, rtcp.update_session_statistics,
    update_statistics, zero_stats, MIN_SEQUENTIAL, hl]

/-- A frame with the next sequence number, for a participant on probation 2, is
rejected: `packet_handler` returns RTP_GENERIC_ERROR, the probation counter
becomes 1, and only `max_seq` moves. -/
theorem packet_handler_second_frame (s : rtcp) (e : environment) (fl : Int) (f : rtp_frame)
    (p : rtcp_participant) (hp : s.participants_ f.ssrc = some p) (hprob : p.probation = 2)
    (hseq : f.seq = p.stats.max_seq + 1) :
    (s.packet_handler e fl f).1 = RTP_GENERIC_ERROR ∧
    (s.packet_handler e fl f).2.participants_ f.ssrc =
      some { p with probation := 1, stats := { p.stats with max_seq := f.seq } } := by
  simp [rtcp.packet_handler, rtcp.is_participant, hp, rtcp.update_participant_seq, hprob, hseq]

/-- For every session, every SSRC it does not know and every sequence number n:
after `packet_handler` has processed frames n and n+1 of that SSRC, the second
call has returned RTP_GENERIC_ERROR and the participant is still on probation
(probation = 1) with base_seq = n and max_seq = n+1. -/
theorem two_sequential_frames_keep_probation (s : rtcp) (e1 e2 : environment) (fl : Int)
    (ssrc n t1 t2 l1 l2 : Nat) (hnew : s.participants_ ssrc = none) :
    ((s.packet_handler e1 fl ⟨ssrc, n, t1, l1⟩).2.packet_handler e2 fl ⟨ssrc, n + 1, t2, l2⟩).1
      = RTP_GENERIC_ERROR ∧
    ∃ p, ((s.packet_handler e1 fl ⟨ssrc, n, t1, l1⟩).2.packet_handler e2 fl
        ⟨ssrc, n + 1, t2, l2⟩).2.participants_ ssrc = some p ∧
      p.probation = 1 ∧ p.stats.base_seq = n ∧ p.stats.max_seq = n + 1 := by
  obtain ⟨_, p, hp, h2, hb, hm⟩ := packet_handler_first_frame s e1 fl ⟨ssrc, n, t1, l1⟩ hnew
  have h := packet_handler_second_frame (s.packet_handler e1 fl ⟨ssrc, n, t1, l1⟩).2 e2 fl
    ⟨ssrc, n + 1, t2, l2⟩ p hp h2 (by simp [hm])
  refine ⟨h.1, _, h.2, rfl, ?_, rfl⟩
  simpa using hb

/-- C1: the code at the scenario S1 of the spec. A new session receives RTP
frames of SSRC 0xAA with sequence numbers 100 and 101 through `packet_handler`.
The first call returns RTP_PKT_NOT_HANDLED, the second RTP_GENERIC_ERROR, and
afterwards the participant is still on probation: probation = 1, base_seq = 100,
max_seq = 101, received_pkts = 1 (the claim has probation = 0,
base_seq = max_seq = 101, received_pkts = 2). -/
theorem probation_after_seq_100_101 :
    (feed new_session sample_environment 0xAA [100, 101]).1
      = [RTP_PKT_NOT_HANDLED, RTP_GENERIC_ERROR] ∧
    seq_view (feed new_session sample_environment 0xAA [100, 101]).2 0xAA
      = some (1, 100, 101, 1, 0, 1, 0) :=
  ⟨rfl, rfl⟩

/-! ## Sequence wrap (rtcp.cc 290-296) -/

/-- No call of `update_participant_seq` changes the stored `cycles` of a
participant whose `cycles` is a `uint16_t` value: adding RTP_SEQ_MOD = 2^16 to a
16-bit field is the identity. -/
theorem update_participant_seq_cycles (s : rtcp) (ssrc seq : Nat) (p : rtcp_participant)
    (hp : s.participants_ ssrc = some p) (hc : p.stats.cycles < 2 ^ 16) :
    ∃ q, (s.update_participant_seq ssrc seq).2.participants_ ssrc = some q ∧
      q.stats.cycles = p.stats.cycles := by
  have hmod : (p.stats.cycles + 65536) % 65536 = p.stats.cycles := by omega
  unfold rtcp.update_participant_seq
  simp only [hp]
  split_ifs <;> simp [rtcp.init_participant_seq, hp, RTP_SEQ_MOD_eq, U16_eq, hmod]

/-- C2: the code at a 0xFFFF -> 0x0000 crossing of a validated source. A new
session receives RTP frames of SSRC 0xAA with sequence numbers 65533, 65534,
65535 (the third validates the source, base_seq = max_seq = 65535) and then 0.
The frame 0 is accepted in order (udelta = 1, and 0 < 65535) and max_seq becomes
0, but the stored cycles is still 0 where the claim has 65536. -/
theorem cycles_after_wrap :
    (feed new_session sample_environment 0xAA [65533, 65534, 65535]).1
      = [RTP_PKT_NOT_HANDLED, RTP_GENERIC_ERROR, RTP_PKT_NOT_HANDLED] ∧
    seq_view (feed new_session sample_environment 0xAA [65533, 65534, 65535]).2 0xAA
      = some (0, 65535, 65535, 1, 0, 2, 4294967295) ∧
    ((feed new_session sample_environment 0xAA [65533, 65534, 65535]).2.update_participant_seq
      0xAA 0).1 = RTP_OK ∧
    seq_view ((feed new_session sample_environment 0xAA [65533, 65534, 65535]).2.update_participant_seq
      0xAA 0).2 0xAA = some (0, 65535, 0, 1, 0, 2, 4294967295) :=
  ⟨rfl, rfl, rfl, rfl⟩

/-! ## Loss accounting (rtcp.cc 366-377) -/

/-- C3: the code at the scenario S2 of the spec. A new session receives RTP
frames of SSRC 0xAA with sequence numbers 200, 201, 202, 205. The source is
validated by frame 202 with received_pkts = 2 and dropped_pkts = 2^32 - 1 (no
sequence number skipped, expected = 1); after frame 205 (two numbers skipped,
expected = 4) it has received_pkts = 3 and dropped_pkts = 1, where the claim has
dropped_pkts = 2 and received_pkts = expected - 2. -/
theorem loss_after_gap :
    (feed new_session sample_environment 0xAA [200, 201, 202]).1
      = [RTP_PKT_NOT_HANDLED, RTP_GENERIC_ERROR, RTP_PKT_NOT_HANDLED] ∧
    seq_view (feed new_session sample_environment 0xAA [200, 201, 202]).2 0xAA
      = some (0, 202, 202, 1, 0, 2, 4294967295) ∧
    (feed new_session sample_environment 0xAA [200, 201, 202, 205]).1
      = [RTP_PKT_NOT_HANDLED, RTP_GENERIC_ERROR, RTP_PKT_NOT_HANDLED, RTP_PKT_NOT_HANDLED] ∧
    seq_view (feed new_session sample_environment 0xAA [200, 201, 202, 205]).2 0xAA
      = some (0, 202, 205, 1, 0, 3, 1) :=
  ⟨rfl, rfl, rfl, rfl⟩

/-! ## Large jumps and resynchronisation (rtcp.cc 297-313) -/

/-- C4, as stated, fails at the upper end of the large-jump range. SSRC 0xAA is
validated by frames 198, 199, 200 (base_seq = max_seq = 200, bad_seq = 1). The
sequence number 100 is a large jump with udelta = 65436 = 2^16 - MAX_MISORDER and
differs from bad_seq; it is rejected and bad_seq becomes 101. The next sequence
number 101 has udelta = 65437, so it is taken for a reordered packet: the call
returns RTP_OK without a resync, and base_seq and max_seq stay 200 instead of
becoming 101. -/
theorem jump_at_upper_bound_not_resynced :
    seq_view (feed new_session sample_environment 0xAA [198, 199, 200]).2 0xAA
      = some (0, 200, 200, 1, 0, 2, 4294967295) ∧
    (MAX_DROPOUT ≤ (100 + 2 ^ 16 - 200) % 2 ^ 16 ∧
      (100 + 2 ^ 16 - 200) % 2 ^ 16 ≤ 2 ^ 16 - MAX_MISORDER) ∧
    ((feed new_session sample_environment 0xAA [198, 199, 200]).2.update_participant_seq
      0xAA 100).1 = RTP_GENERIC_ERROR ∧
    seq_view ((feed new_session sample_environment 0xAA [198, 199, 200]).2.update_participant_seq
      0xAA 100).2 0xAA = some (0, 200, 200, 101, 0, 2, 4294967295) ∧
    ((((feed new_session sample_environment 0xAA [198, 199, 200]).2.update_participant_seq
      0xAA 100).2).update_participant_seq 0xAA 101).1 = RTP_OK ∧
    seq_view ((((feed new_session sample_environment 0xAA [198, 199, 200]).2.update_participant_seq
      0xAA 100).2).update_participant_seq 0xAA 101).2 0xAA
      = some (0, 200, 200, 101, 0, 2, 4294967295) :=
  ⟨rfl, ⟨by decide, by decide⟩, rfl, rfl, rfl, rfl⟩

/-- C4 (amended): for every validated source (probation = 0) and every sequence
number seq that makes a large jump
(MAX_DROPOUT <= (seq - max_seq) mod 2^16 <= 2^16 - MAX_MISORDER) with
seq != bad_seq, `update_participant_seq` rejects the packet (RTP_GENERIC_ERROR)
and changes nothing but bad_seq, which becomes (seq + 1) mod 2^16. If the jump
is strictly below the upper end of the range
((seq - max_seq) mod 2^16 < 2^16 - MAX_MISORDER), the next packet with sequence
number (seq + 1) mod 2^16 is accepted (RTP_OK) as a resync, after which
base_seq = max_seq = (seq + 1) mod 2^16 and probation = 0. At the upper end
((seq - max_seq) mod 2^16 = 2^16 - MAX_MISORDER) that next packet is taken for a
reordered one: it is accepted (RTP_OK) and the session is left as it was. -/
theorem update_participant_seq_jump_resync (s : rtcp) (ssrc seq : Nat) (p : rtcp_participant)
    (hp : s.participants_ ssrc = some p) (hprob : p.probation = 0)
    (hmax : p.stats.max_seq < 2 ^ 16)
    (hlo : MAX_DROPOUT ≤ (seq + 2 ^ 16 - p.stats.max_seq) % 2 ^ 16)
    (hhi : (seq + 2 ^ 16 - p.stats.max_seq) % 2 ^ 16 ≤ 2 ^ 16 - MAX_MISORDER)
    (hbad : seq ≠ p.stats.bad_seq) :
    (s.update_participant_seq ssrc seq).1 = RTP_GENERIC_ERROR ∧
    (s.update_participant_seq ssrc seq).2.participants_ ssrc
      = some { p with stats := { p.stats with bad_seq := (seq + 1) % 2 ^ 16 } } ∧
    ((seq + 2 ^ 16 - p.stats.max_seq) % 2 ^ 16 < 2 ^ 16 - MAX_MISORDER →
      ((s.update_participant_seq ssrc seq).2.update_participant_seq ssrc
        ((seq + 1) % 2 ^ 16)).1 = RTP_OK ∧
      ∃ q, ((s.update_participant_seq ssrc seq).2.update_participant_seq ssrc
          ((seq + 1) % 2 ^ 16)).2.participants_ ssrc = some q ∧
        q.stats.base_seq = (seq + 1) % 2 ^ 16 ∧ q.stats.max_seq = (seq + 1) % 2 ^ 16 ∧
        q.probation = 0) ∧
    ((seq + 2 ^ 16 - p.stats.max_seq) % 2 ^ 16 = 2 ^ 16 - MAX_MISORDER →
      (s.update_participant_seq ssrc seq).2.update_participant_seq ssrc ((seq + 1) % 2 ^ 16)
        = (RTP_OK, (s.update_participant_seq ssrc seq).2)) := by
  simp only [MAX_DROPOUT, MAX_MISORDER] at hlo hhi ⊢
  norm_num at hlo hhi hmax
  have hmask : ((seq + 1) &&& (65536 - 1)) % 65536 = (seq + 1) % 65536 := by
    rw [land_seq_mask]; omega
  have h1 : s.update_participant_seq ssrc seq = (RTP_GENERIC_ERROR, s.set_participant ssrc
      { p with stats := { p.stats with bad_seq := (seq + 1) % 65536 } }) := by
    unfold rtcp.update_participant_seq
    simp only [hp, hprob, U16_eq, RTP_SEQ_MOD_eq, MAX_DROPOUT, MAX_MISORDER, hmask]
    rw [if_neg (by simp), if_neg (by omega), if_pos (by omega), if_neg hbad]
  norm_num
  rw [h1]
  refine ⟨rfl, by simp, ?_, ?_⟩
  · intro hlt
    have h2 : (s.set_participant ssrc
        { p with stats := { p.stats with bad_seq := (seq + 1) % 65536 } }).update_participant_seq
          ssrc ((seq + 1) % 65536)
        = (RTP_OK, ((s.set_participant ssrc
            { p with stats := { p.stats with bad_seq := (seq + 1) % 65536 } }).init_participant_seq
              ssrc ((seq + 1) % 65536)).2) := by
      unfold rtcp.update_participant_seq
      simp only [set_participant_same, hprob, U16_eq, RTP_SEQ_MOD_eq, MAX_DROPOUT, MAX_MISORDER]
      rw [if_neg (by simp), if_neg (by omega), if_pos (by omega)]
      simp
    simp only [h2]
    simp [rtcp.init_participant_seq, hprob]
  · intro heq
    unfold rtcp.update_participant_seq
    simp only [set_participant_same, hprob, U16_eq, RTP_SEQ_MOD_eq, MAX_DROPOUT, MAX_MISORDER]
    rw [if_neg (by simp), if_neg (by omega), if_neg (by omega)]

/-- Witness for C4 (amended): the scenario S4 of the spec after validation. SSRC
0xAA is validated by frames 500, 501, 502; the sequence number 40000 is rejected
with bad_seq = 40001, and 40001 resyncs the source. -/
theorem update_participant_seq_jump_resync_witness :
    ((feed new_session sample_environment 0xAA [500, 501, 502]).2.participants_ 0xAA
      = some { blank_participant with
          probation := 0,
          stats := { blank_stats with
            received_pkts := 2, received_bytes := 320, dropped_pkts := 4294967295,
            initial_ntp := 1000, base_seq := 502, max_seq := 502, bad_seq := 1 } } ∧
      MAX_DROPOUT ≤ (40000 + 2 ^ 16 - 502) % 2 ^ 16 ∧
      (40000 + 2 ^ 16 - 502) % 2 ^ 16 < 2 ^ 16 - MAX_MISORDER) ∧
    ((feed new_session sample_environment 0xAA [500, 501, 502]).2.update_participant_seq
      0xAA 40000).1 = RTP_GENERIC_ERROR ∧
    (((feed new_session sample_environment 0xAA [500, 501, 502]).2.update_participant_seq
      0xAA 40000).2.update_participant_seq 0xAA ((40000 + 1) % 2 ^ 16)).1 = RTP_OK ∧
    ∃ q, (((feed new_session sample_environment 0xAA [500, 501, 502]).2.update_participant_seq
        0xAA 40000).2.update_participant_seq 0xAA ((40000 + 1) % 2 ^ 16)).2.participants_ 0xAA
          = some q ∧
      q.stats.base_seq = (40000 + 1) % 2 ^ 16 ∧ q.stats.max_seq = (40000 + 1) % 2 ^ 16 ∧
      q.probation = 0 :=
  have h := update_participant_seq_jump_resync
    (feed new_session sample_environment 0xAA [500, 501, 502]).2 0xAA 40000
    { blank_participant with
      probation := 0,
      stats := { blank_stats with
        received_pkts := 2, received_bytes := 320, dropped_pkts := 4294967295,
        initial_ntp := 1000, base_seq := 502, max_seq := 502, bad_seq := 1 } }
    rfl rfl (by decide) (by decide) (by decide) (by decide)
  ⟨⟨rfl, by decide, by decide⟩, h.1, (h.2.2.1 (by decide)).1, (h.2.2.1 (by decide)).2⟩

/-! ## Dispatch of incoming RTCP packets (rtcp.cc 430-483) -/

/-- C5: for every session, every set of handlers and every buffer whose header
has version != 2, or the padding bit set, or pkt_type outside [200, 204],
`handle_incoming_packet` returns RTP_INVALID_VALUE and the session it leaves is
the session it was given: whatever the handlers do, none of them has run, and
the participant table, rtcp_pkt_count_, rtcp_byte_count_ and the average packet
size are unchanged. -/
theorem handle_incoming_packet_rejects (s : rtcp) (h : rtcp_handlers) (buffer : rtcp_buffer)
    (size : Nat)
    (hbad : buffer.header.version ≠ 2 ∨ buffer.header.padding ≠ 0 ∨
      buffer.header.pkt_type < 200 ∨ 204 < buffer.header.pkt_type) :
    (s.handle_incoming_packet h buffer size).1 = RTP_INVALID_VALUE ∧
    (s.handle_incoming_packet h buffer size).2 = s ∧
    (s.handle_incoming_packet h buffer size).2.participants_ = s.participants_ ∧
    (s.handle_incoming_packet h buffer size).2.rtcp_pkt_count_ = s.rtcp_pkt_count_ ∧
    (s.handle_incoming_packet h buffer size).2.rtcp_byte_count_ = s.rtcp_byte_count_ ∧
    (s.handle_incoming_packet h buffer size).2.avg_rtcp_pkt_pize_ = s.avg_rtcp_pkt_pize_ := by
  have key : s.handle_incoming_packet h buffer size = (RTP_INVALID_VALUE, s) := by
    unfold rtcp.handle_incoming_packet
    simp only [RTCP_FT_BYE, RTCP_FT_SR]
    by_cases hv : buffer.header.version = 2
    · by_cases hpad : buffer.header.padding = 0
      · have ht : buffer.header.pkt_type > 203 ∨ buffer.header.pkt_type < 200 := by
          rcases hbad with h1 | h1 | h1 | h1
          · exact absurd hv h1
          · exact absurd hpad h1
          · exact Or.inr h1
          · exact Or.inl (by omega)
        simp [hv, hpad, ht]
      · simp [hv, hpad]
    · simp [hv]
  rw [key]
  exact ⟨rfl, rfl, rfl, rfl, rfl, rfl⟩

/-- Witness for C5: a header with version 1 and packet type 200, given to
handlers that would each leave a mark in the session. -/
theorem handle_incoming_packet_rejects_witness :
    ((1 : Nat) ≠ 2 ∨ (0 : Nat) ≠ 0 ∨ (200 : Nat) < 200 ∨ 204 < (200 : Nat)) ∧
    (new_session.handle_incoming_packet marking_handlers
      { header := { version := 1, padding := 0, count := 0, pkt_type := 200, length := 6 },
        payload := [] } 28).1 = RTP_INVALID_VALUE ∧
    (new_session.handle_incoming_packet marking_handlers
      { header := { version := 1, padding := 0, count := 0, pkt_type := 200, length := 6 },
        payload := [] } 28).2 = new_session :=
  ⟨Or.inl (by decide),
    (handle_incoming_packet_rejects new_session marking_handlers
      { header := { version := 1, padding := 0, count := 0, pkt_type := 200, length := 6 },
        payload := [] } 28 (Or.inl (by decide))).1,
    (handle_incoming_packet_rejects new_session marking_handlers
      { header := { version := 1, padding := 0, count := 0, pkt_type := 200, length := 6 },
        payload := [] } 28 (Or.inl (by decide))).2.1⟩

/-- A header with version 2, no padding and a packet type from 200 (SR) to 203
(BYE) passes validation: the bandwidth accounting runs once and the result is
that of the handler of the packet type, run on the updated session. -/
theorem handle_incoming_packet_dispatch (s : rtcp) (h : rtcp_handlers) (buffer : rtcp_buffer)
    (size : Nat) (hv : buffer.header.version = 2) (hpad : buffer.header.padding = 0) :
    (buffer.header.pkt_type = 200 → s.handle_incoming_packet h buffer size
      = h.handle_sender_report_packet (s.update_rtcp_bandwidth size) buffer size) ∧
    (buffer.header.pkt_type = 201 → s.handle_incoming_packet h buffer size
      = h.handle_receiver_report_packet (s.update_rtcp_bandwidth size) buffer size) ∧
    (buffer.header.pkt_type = 202 → s.handle_incoming_packet h buffer size
      = h.handle_sdes_packet (s.update_rtcp_bandwidth size) buffer size) ∧
    (buffer.header.pkt_type = 203 → s.handle_incoming_packet h buffer size
      = h.handle_bye_packet (s.update_rtcp_bandwidth size) buffer size) := by
  refine ⟨?_, ?_, ?_, ?_⟩ <;> intro ht <;>
  simp [rtcp.handle_incoming_packet, hv, hpad, ht, RTCP_FT_SR, RTCP_FT_RR, RTCP_FT_SDES,
    RTCP_FT_BYE, RTCP_FT_APP]

/-- C6: the code on an APP packet. For every session, all handlers and every
buffer whose header has version 2, padding 0 and pkt_type 204 (APP),
`handle_incoming_packet` returns RTP_INVALID_VALUE and leaves the session as it
was: the type check compares with RTCP_FT_BYE = 203, so the packet fails header
validation, the bandwidth accounting is not updated and `handle_app_packet` is
not reached. -/
theorem handle_incoming_packet_app (s : rtcp) (h : rtcp_handlers) (count length : Nat)
    (payload : List Nat) (size : Nat) :
    s.handle_incoming_packet h
      { header := { version := 2, padding := 0, count := count, pkt_type := 204,
                    length := length },
        payload := payload } size = (RTP_INVALID_VALUE, s) := by
  simp [rtcp.handle_incoming_packet, RTCP_FT_SR, RTCP_FT_BYE]

/-! ## Collision detection and reset (rtcp.cc 332-364) -/

/-- The condition `collision_detected` tests: the SSRC is known and the source
differs from the stored address both in port and in IP address. -/
theorem collision_detected_iff (s : rtcp) (ssrc : Nat) (src_addr : sockaddr_in) :
    s.collision_detected ssrc src_addr = true ↔
      ∃ p, s.participants_ ssrc = some p ∧ src_addr.sin_port ≠ p.address.sin_port ∧
        src_addr.sin_addr.s_addr ≠ p.address.sin_addr.s_addr := by
  unfold rtcp.collision_detected
  cases hp : s.participants_ ssrc with
  | none => simp
  | some p => simp

/-- C7: the code on a source that differs from the stored address in one
component only. The pending peer 10.0.0.1:5000 is promoted to SSRC 0xAA by its
first RTP frame. A source 10.0.0.2:5000 (other IP address, same port) and a
source 10.0.0.1:6000 (same IP address, other port) are both reported as no
collision; only a source that differs in both is reported. -/
theorem collision_detected_one_component :
    (feed pending_session sample_environment 0xAA [100]).2.is_participant 0xAA = true ∧
    ((feed pending_session sample_environment 0xAA [100]).2.participants_ 0xAA).map
        (fun p => p.address)
      = some { sin_family := 2, sin_port := 5000, sin_addr := { s_addr := 0x0A000001 } } ∧
    (feed pending_session sample_environment 0xAA [100]).2.collision_detected 0xAA
      { sin_family := 2, sin_port := 5000, sin_addr := { s_addr := 0x0A000002 } } = false ∧
    (feed pending_session sample_environment 0xAA [100]).2.collision_detected 0xAA
      { sin_family := 2, sin_port := 6000, sin_addr := { s_addr := 0x0A000001 } } = false ∧
    (feed pending_session sample_environment 0xAA [100]).2.collision_detected 0xAA
      { sin_family := 2, sin_port := 6000, sin_addr := { s_addr := 0x0A000002 } } = true :=
  ⟨rfl, rfl, rfl, rfl, rfl⟩

/-- C8: `reset_rtcp_state` returns RTP_SSRC_COLLISION exactly when the SSRC is a
key of the participant table, and then the whole session, in particular
`our_stats` and the table, is unchanged; for every other SSRC it returns
RTP_OK. -/
theorem reset_rtcp_state_status (s : rtcp) (ssrc : Nat) :
    ((s.reset_rtcp_state ssrc).1 = RTP_SSRC_COLLISION ↔ s.is_participant ssrc = true) ∧
    (s.is_participant ssrc = true →
      (s.reset_rtcp_state ssrc).2 = s ∧
      (s.reset_rtcp_state ssrc).2.our_stats = s.our_stats ∧
      (s.reset_rtcp_state ssrc).2.participants_ = s.participants_) ∧
    (s.is_participant ssrc = false → (s.reset_rtcp_state ssrc).1 = RTP_OK) := by
  unfold rtcp.reset_rtcp_state rtcp.is_participant
  cases hp : (s.participants_ ssrc).isSome <;> simp

/-- C9: when the SSRC is not a known participant, `reset_rtcp_state` returns
RTP_OK, the eleven counters and sequence fields of `our_stats` are zero
afterwards, and the participant table is the one from before the call. -/
theorem reset_rtcp_state_zeroes (s : rtcp) (ssrc : Nat) (hnew : s.participants_ ssrc = none) :
    (s.reset_rtcp_state ssrc).1 = RTP_OK ∧
    (s.reset_rtcp_state ssrc).2.our_stats.received_pkts = 0 ∧
    (s.reset_rtcp_state ssrc).2.our_stats.received_bytes = 0 ∧
    (s.reset_rtcp_state ssrc).2.our_stats.dropped_pkts = 0 ∧
    (s.reset_rtcp_state ssrc).2.our_stats.sent_pkts = 0 ∧
    (s.reset_rtcp_state ssrc).2.our_stats.sent_bytes = 0 ∧
    (s.reset_rtcp_state ssrc).2.our_stats.jitter = 0 ∧
    (s.reset_rtcp_state ssrc).2.our_stats.transit = 0 ∧
    (s.reset_rtcp_state ssrc).2.our_stats.max_seq = 0 ∧
    (s.reset_rtcp_state ssrc).2.our_stats.base_seq = 0 ∧
    (s.reset_rtcp_state ssrc).2.our_stats.bad_seq = 0 ∧
    (s.reset_rtcp_state ssrc).2.our_stats.cycles = 0 ∧
    (s.reset_rtcp_state ssrc).2.participants_ = s.participants_ := by
  simp [rtcp.reset_rtcp_state, hnew]

/-- Witness for C9: a session that knows SSRC 0xAA and has sent one RTP frame
(sent_pkts = 1, sent_bytes = 160, max_seq = 7) is reset for the new own SSRC
0x2222. -/
theorem reset_rtcp_state_zeroes_witness :
    (((feed pending_session sample_environment 0xAA [100]).2.sender_update_stats
        (some { ssrc := 0x1111, seq := 7, timestamp := 0, payload_len := 160 })).participants_
          0x2222 = none ∧
      ((feed pending_session sample_environment 0xAA [100]).2.sender_update_stats
        (some { ssrc := 0x1111, seq := 7, timestamp := 0, payload_len := 160 })).our_stats.sent_pkts
          = 1) ∧
    ((((feed pending_session sample_environment 0xAA [100]).2.sender_update_stats
        (some { ssrc := 0x1111, seq := 7, timestamp := 0, payload_len := 160 })).reset_rtcp_state
          0x2222).2.our_stats.sent_pkts = 0 ∧
      (((feed pending_session sample_environment 0xAA [100]).2.sender_update_stats
        (some { ssrc := 0x1111, seq := 7, timestamp := 0, payload_len := 160 })).reset_rtcp_state
          0x2222).2.participants_
        = ((feed pending_session sample_environment 0xAA [100]).2.sender_update_stats
            (some { ssrc := 0x1111, seq := 7, timestamp := 0, payload_len := 160 })).participants_) :=
  have h := reset_rtcp_state_zeroes
    ((feed pending_session sample_environment 0xAA [100]).2.sender_update_stats
      (some { ssrc := 0x1111, seq := 7, timestamp := 0, payload_len := 160 })) 0x2222 rfl
  ⟨⟨rfl, rfl⟩, h.2.2.2.2.1, h.2.2.2.2.2.2.2.2.2.2.2.2⟩

/-! ## Promotion of a new source (rtcp.cc 154-174, 228-252) -/

/-- C10: for every session and every RTP frame, `init_new_participant` returns
RTP_OK and afterwards the frame's SSRC is a known participant with
probation = MIN_SEQUENTIAL = 2, base_seq = max_seq = the frame's sequence number
and initial_rtp = the frame's timestamp. If the pending list was non-empty its
last entry is the one that has been moved: the participant has its socket,
address and role and the pending list has lost exactly that entry (it is one
shorter); if the pending list was empty it stays empty. Every other entry of the
participant table is unchanged. -/
theorem init_new_participant_promotes (s : rtcp) (e : environment) (frame : rtp_frame) :
    (s.init_new_participant e frame).1 = RTP_OK ∧
    (s.init_new_participant e frame).2.is_participant frame.ssrc = true ∧
    (∃ p, (s.init_new_participant e frame).2.participants_ frame.ssrc = some p ∧
      p.probation = MIN_SEQUENTIAL ∧ p.probation = 2 ∧
      p.stats.base_seq = frame.seq ∧ p.stats.max_seq = frame.seq ∧
      p.stats.initial_rtp = frame.timestamp ∧
      (∀ q, s.initial_participants_.getLast? = some q →
        p.socket = q.socket ∧ p.address = q.address ∧ p.role = q.role)) ∧
    (s.initial_participants_ ≠ [] →
      (s.init_new_participant e frame).2.initial_participants_
        = s.initial_participants_.dropLast ∧
      (s.init_new_participant e frame).2.initial_participants_.length + 1
        = s.initial_participants_.length) ∧
    (s.initial_participants_ = [] →
      (s.init_new_participant e frame).2.initial_participants_ = []) ∧
    (∀ k, k ≠ frame.ssrc →
      (s.init_new_participant e frame).2.participants_ k = s.participants_ k) := by
  cases hl : s.initial_participants_.getLast? with
  | none =>
    have hnil : s.initial_participants_ = [] := List.getLast?_eq_none_iff.mp hl
    simp [rtcp.init_new_participant, rtcp.add_participant_ssrc, rtcp.init_participant_seq,
      rtcp.is_participant, rtcp.set_participant, MIN_SEQUENTIAL, hl, hnil]
    intro k hk
    simp [hk]
  | some q =>
    have hne : s.initial_participants_ ≠ [] := by
      intro h
      rw [h] at hl
      simp at hl
    have hlen : 0 < s.initial_participants_.length := List.length_pos.mpr hne
    simp [rtcp.init_new_participant, rtcp.add_participant_ssrc, rtcp.init_participant_seq,
      rtcp.is_participant, rtcp.set_participant, MIN_SEQUENTIAL, hl, hne]
    refine ⟨by omega, ?_⟩
    intro k hk
    simp [hk]

/-! ## The stored bad_seq (rtcp.cc 254-264) -/

/-- For a known SSRC, `init_participant_seq` stores bad_seq = 1: the value
`(uint16_t)RTP_SEQ_MOD + 1` is 0 + 1. -/
theorem init_participant_seq_bad_seq (s : rtcp) (ssrc base_seq : Nat) (p : rtcp_participant)
    (hp : s.participants_ ssrc = some p) :
    (s.init_participant_seq ssrc base_seq).1 = RTP_OK ∧
    (s.init_participant_seq ssrc base_seq).2.participants_ ssrc
      = some { p with stats := { p.stats with
          base_seq := base_seq, max_seq := base_seq, bad_seq := 1 } } := by
  simp [rtcp.init_participant_seq, hp, RTP_SEQ_MOD_eq, U16_eq]

/-- C11: the code on a large jump to sequence number 1 right after validation.
SSRC 0xAA is validated by frames 4998, 4999, 5000, which runs
`init_participant_seq`: the stored bad_seq is 1, a 16-bit sequence number. The
next frame has sequence number 1, a large jump (udelta = 60537, between
MAX_DROPOUT and 2^16 - MAX_MISORDER). It is the first packet of the jump, and it
is not rejected: `update_participant_seq` returns RTP_OK and resyncs
(base_seq = max_seq = 1), and `packet_handler` counts it (received_pkts = 3). -/
theorem first_jump_packet_accepted_at_bad_seq :
    seq_view (feed new_session sample_environment 0xAA [4998, 4999, 5000]).2 0xAA
      = some (0, 5000, 5000, 1, 0, 2, 4294967295) ∧
    (MAX_DROPOUT ≤ (1 + 2 ^ 16 - 5000) % 2 ^ 16 ∧
      (1 + 2 ^ 16 - 5000) % 2 ^ 16 ≤ 2 ^ 16 - MAX_MISORDER) ∧
    ((feed new_session sample_environment 0xAA [4998, 4999, 5000]).2.update_participant_seq
      0xAA 1).1 = RTP_OK ∧
    seq_view ((feed new_session sample_environment 0xAA [4998, 4999, 5000]).2.update_participant_seq
      0xAA 1).2 0xAA = some (0, 1, 1, 1, 0, 2, 4294967295) ∧
    (feed new_session sample_environment 0xAA [4998, 4999, 5000, 1]).1
      = [RTP_PKT_NOT_HANDLED, RTP_GENERIC_ERROR, RTP_PKT_NOT_HANDLED, RTP_PKT_NOT_HANDLED] ∧
    seq_view (feed new_session sample_environment 0xAA [4998, 4999, 5000, 1]).2 0xAA
      = some (0, 1, 1, 1, 0, 3, 4294967294) :=
  ⟨rfl, ⟨by decide, by decide⟩, rfl, rfl, rfl, rfl⟩

/-! ## The clock rate of a promoted source (rtcp.cc 93-174, 228-252) -/

/-- The pending session of the evaluations is what add_participant("10.0.0.1",
5000, 6000, 90000) makes of a new session. -/
theorem pending_session_from_add_participant :
    (new_session.add_participant blank_participant working_sockets peer_address
      5000 6000 90000).1 = RTP_OK ∧
    (new_session.add_participant blank_participant working_sockets peer_address
      5000 6000 90000).2.initial_participants_ = pending_session.initial_participants_ ∧
    (new_session.add_participant blank_participant working_sockets peer_address
      5000 6000 90000).2.sockets_ = pending_session.sockets_ :=
  ⟨rfl, rfl, rfl⟩

/-- C12, as stated, fails for a shadow entry. The new session holds the clock
rate 90000 of its RTP context in `clock_rate_` and has no pending entry; the
participant that `init_new_participant` creates for SSRC 0xAA has
stats.clock_rate = 0, not 90000. -/
theorem shadow_entry_clock_rate_zero :
    new_session.clock_rate_ = 90000 ∧
    new_session.initial_participants_ = [] ∧
    (new_session.init_new_participant sample_environment
      { ssrc := 0xAA, seq := 100, timestamp := 0, payload_len := 160 }).1 = RTP_OK ∧
    ((new_session.init_new_participant sample_environment
      { ssrc := 0xAA, seq := 100, timestamp := 0, payload_len := 160 }).2.participants_ 0xAA).map
        (fun p => p.stats.clock_rate) = some 0 :=
  ⟨rfl, rfl, rfl, rfl⟩

/-- C12 (amended): when `init_new_participant` promotes an SSRC, the
participant's stats.clock_rate is the clock rate stored in the pending entry it
consumes (the last one), which is the clock_rate given to the add_participant
call that parked that entry; and when no pending entry exists (stats-only shadow
entry) it is 0, whatever clock rate the session holds in `clock_rate_`. -/
theorem init_new_participant_clock_rate (s : rtcp) (e : environment) (frame : rtp_frame) :
    (∀ q, s.initial_participants_.getLast? = some q →
      ∃ p, (s.init_new_participant e frame).2.participants_ frame.ssrc = some p ∧
        p.stats.clock_rate = q.stats.clock_rate) ∧
    (∀ (fresh : rtcp_participant) (io : socket_calls) (dst_addr : String)
        (dst_port src_port clock_rate : Nat),
      (s.add_participant fresh io dst_addr dst_port src_port clock_rate).1 = RTP_OK →
      ∃ p, ((s.add_participant fresh io dst_addr dst_port src_port
          clock_rate).2.init_new_participant e frame).2.participants_ frame.ssrc = some p ∧
        p.stats.clock_rate = clock_rate) ∧
    (s.initial_participants_ = [] →
      ∃ p, (s.init_new_participant e frame).2.participants_ frame.ssrc = some p ∧
        p.stats.clock_rate = 0) := by
  refine ⟨?_, ?_, ?_⟩
  · intro q hq
    simp [rtcp.init_new_participant, rtcp.add_participant_ssrc, rtcp.init_participant_seq, hq]
  · intro fresh io dst_addr dst_port src_port clock_rate hok
    unfold rtcp.add_participant at hok ⊢
    split_ifs at hok ⊢ <;>
      first
      | (exfalso; simp_all; done)
      | simp [rtcp.init_new_participant, rtcp.add_participant_ssrc, rtcp.init_participant_seq]
  · intro hnil
    simp [rtcp.init_new_participant, rtcp.add_participant_ssrc, rtcp.init_participant_seq,
      hnil, zero_stats]

/-! ## The status of packet_handler (rtcp.cc 401-428) -/

/-- C13, as stated, fails for the packets that `update_participant_seq` rejects.
For SSRC 0xAA the frame 101 that follows the promoting frame 100 (source on
probation) gets RTP_GENERIC_ERROR, and after validation by 500, 501, 502 the
first packet 40000 of a large jump gets RTP_GENERIC_ERROR as well; neither is
RTP_PKT_NOT_HANDLED. -/
theorem packet_handler_rejected_status :
    (feed new_session sample_environment 0xAA [100, 101]).1
      = [RTP_PKT_NOT_HANDLED, RTP_GENERIC_ERROR] ∧
    (feed new_session sample_environment 0xAA [500, 501, 502, 40000]).1
      = [RTP_PKT_NOT_HANDLED, RTP_GENERIC_ERROR, RTP_PKT_NOT_HANDLED, RTP_GENERIC_ERROR] ∧
    RTP_GENERIC_ERROR ≠ RTP_PKT_NOT_HANDLED :=
  ⟨rfl, rfl, by decide⟩

/-- The status of `update_participant_seq` for a known SSRC, case by case. -/
theorem update_participant_seq_status (s : rtcp) (ssrc seq : Nat) (p : rtcp_participant)
    (hp : s.participants_ ssrc = some p) :
    (s.update_participant_seq ssrc seq).1 =
      if p.probation ≠ 0 then
        (if seq = p.stats.max_seq + 1 ∧ p.probation = 1 then RTP_OK else RTP_GENERIC_ERROR)
      else if (seq + 2 ^ 16 - p.stats.max_seq) % 2 ^ 16 < MAX_DROPOUT then RTP_OK
      else if (seq + 2 ^ 16 - p.stats.max_seq) % 2 ^ 16 ≤ 2 ^ 16 - MAX_MISORDER then
        (if seq = p.stats.bad_seq then RTP_OK else RTP_GENERIC_ERROR)
      else RTP_OK := by
  unfold rtcp.update_participant_seq
  simp only [hp, U16_eq, RTP_SEQ_MOD_eq]
  norm_num
  by_cases h0 : p.probation = 0
  · simp only [h0, if_true]
    split_ifs <;> rfl
  · simp only [h0, if_false]
    by_cases hs : seq = p.stats.max_seq + 1
    · by_cases h1 : p.probation = 1
      · simp [hs, h1]
      · have h1' : ¬ (p.probation - 1 = 0) := by omega
        simp [hs, h1, h1']
    · simp [hs]

/-- For a known SSRC `packet_handler` returns RTP_PKT_NOT_HANDLED when
`update_participant_seq` returns RTP_OK and RTP_GENERIC_ERROR otherwise. -/
theorem packet_handler_known_status (s : rtcp) (e : environment) (fl : Int) (f : rtp_frame)
    (p : rtcp_participant) (hp : s.participants_ f.ssrc = some p) :
    (s.packet_handler e fl f).1 =
      if (s.update_participant_seq f.ssrc f.seq).1 = RTP_OK then RTP_PKT_NOT_HANDLED
      else RTP_GENERIC_ERROR := by
  unfold rtcp.packet_handler
  simp only [rtcp.is_participant, hp, Option.isSome_some]
  split_ifs <;> simp_all

/-- C13 (amended): `packet_handler` returns RTP_PKT_NOT_HANDLED for every frame
it accepts and RTP_GENERIC_ERROR for every frame that `update_participant_seq`
rejects. A frame of a new SSRC gets RTP_PKT_NOT_HANDLED. For a source on
probation the status is RTP_PKT_NOT_HANDLED exactly for the in-sequence frame
that completes probation and RTP_GENERIC_ERROR otherwise. For a validated
source, with udelta = (seq - max_seq) mod 2^16: a frame in order
(udelta < MAX_DROPOUT) gets RTP_PKT_NOT_HANDLED; the first packet of a large
jump (MAX_DROPOUT <= udelta <= 2^16 - MAX_MISORDER, seq != bad_seq) gets
RTP_GENERIC_ERROR; the second packet of a large jump (same range,
seq = bad_seq) gets RTP_PKT_NOT_HANDLED; a duplicate or reordered frame
(udelta > 2^16 - MAX_MISORDER) gets RTP_PKT_NOT_HANDLED. -/
theorem packet_handler_status (s : rtcp) (e : environment) (fl : Int) (f : rtp_frame) :
    (s.participants_ f.ssrc = none → (s.packet_handler e fl f).1 = RTP_PKT_NOT_HANDLED) ∧
    (∀ p, s.participants_ f.ssrc = some p →
      (p.probation ≠ 0 → (s.packet_handler e fl f).1 =
        if f.seq = p.stats.max_seq + 1 ∧ p.probation = 1 then RTP_PKT_NOT_HANDLED
        else RTP_GENERIC_ERROR) ∧
      (p.probation = 0 → (f.seq + 2 ^ 16 - p.stats.max_seq) % 2 ^ 16 < MAX_DROPOUT →
        (s.packet_handler e fl f).1 = RTP_PKT_NOT_HANDLED) ∧
      (p.probation = 0 → MAX_DROPOUT ≤ (f.seq + 2 ^ 16 - p.stats.max_seq) % 2 ^ 16 →
        (f.seq + 2 ^ 16 - p.stats.max_seq) % 2 ^ 16 ≤ 2 ^ 16 - MAX_MISORDER →
        f.seq ≠ p.stats.bad_seq → (s.packet_handler e fl f).1 = RTP_GENERIC_ERROR) ∧
      (p.probation = 0 → MAX_DROPOUT ≤ (f.seq + 2 ^ 16 - p.stats.max_seq) % 2 ^ 16 →
        (f.seq + 2 ^ 16 - p.stats.max_seq) % 2 ^ 16 ≤ 2 ^ 16 - MAX_MISORDER →
        f.seq = p.stats.bad_seq → (s.packet_handler e fl f).1 = RTP_PKT_NOT_HANDLED) ∧
      (p.probation = 0 → 2 ^ 16 - MAX_MISORDER < (f.seq + 2 ^ 16 - p.stats.max_seq) % 2 ^ 16 →
        (s.packet_handler e fl f).1 = RTP_PKT_NOT_HANDLED)) := by
  constructor
  · intro hnew
    exact (packet_handler_first_frame s e fl f hnew).1
  · intro p hp
    rw [packet_handler_known_status s e fl f p hp,
      update_participant_seq_status s f.ssrc f.seq p hp]
    simp only [MAX_DROPOUT, MAX_MISORDER]
    norm_num
    refine ⟨?_, ?_, ?_, ?_, ?_⟩
    · intro h0
      simp only [h0, if_false]
      split_ifs <;> simp_all
    · intro h0 hlt
      simp [h0, hlt]
    · intro h0 hlo hhi hbad
      have hnlt : ¬ (f.seq + 65536 - p.stats.max_seq) % 65536 < 3000 := by omega
      simp [h0, hnlt, hhi, hbad]
    · intro h0 hlo hhi hbad
      have hnlt : ¬ (f.seq + 65536 - p.stats.max_seq) % 65536 < 3000 := by omega
      simp [h0, hnlt, hhi, hbad]
    · intro h0 hgt
      have hnlt : ¬ (f.seq + 65536 - p.stats.max_seq) % 65536 < 3000 := by omega
      have hnle : ¬ (f.seq + 65536 - p.stats.max_seq) % 65536 ≤ 65436 := by omega
      simp [h0, hnlt, hnle]

/-! ## Statistics and probation (rtcp.cc 366-391, 415-423) -/

/-- For a known SSRC `update_participant_seq` keeps the participant in the table,
leaves its five reception statistics alone, returns RTP_OK or
RTP_GENERIC_ERROR, and when it returns RTP_OK the participant's probation
counter is 0 afterwards. -/
theorem update_participant_seq_reception (s : rtcp) (ssrc seq : Nat) (p : rtcp_participant)
    (hp : s.participants_ ssrc = some p) :
    ∃ q, (s.update_participant_seq ssrc seq).2.participants_ ssrc = some q ∧
      reception_stats (s.update_participant_seq ssrc seq).2 ssrc = reception_stats s ssrc ∧
      ((s.update_participant_seq ssrc seq).1 = RTP_OK → q.probation = 0) ∧
      ((s.update_participant_seq ssrc seq).1 = RTP_OK ∨
        (s.update_participant_seq ssrc seq).1 = RTP_GENERIC_ERROR) := by
  unfold rtcp.update_participant_seq reception_stats
  simp only [hp]
  split_ifs <;> simp_all [rtcp.init_participant_seq]

/-- No call of `packet_handler` touches the table entry of another SSRC. -/
theorem packet_handler_other_entries (s : rtcp) (e : environment) (fl : Int) (f : rtp_frame)
    (k : Nat) (hk : k ≠ f.ssrc) :
    (s.packet_handler e fl f).2.participants_ k = s.participants_ k := by
  unfold rtcp.packet_handler
  cases hp : s.participants_ f.ssrc with
  | none =>
    cases hl : s.initial_participants_.getLast? <;>
    simp [rtcp.is_participant, hp, rtcp.init_new_participant, rtcp.add_participant_ssrc,
      rtcp.init_participant_seq, rtcp.update_session_statistics, rtcp.set_participant, hl, hk]
  | some p =>
    simp only [rtcp.is_participant, hp, Option.isSome_some]
    unfold rtcp.update_participant_seq
    simp only [hp]
    split_ifs <;>
    simp_all [rtcp.init_participant_seq, rtcp.update_session_statistics, rtcp.set_participant]

/-- For a known SSRC whose frame `update_participant_seq` does not accept, the
session that `packet_handler` leaves is the one `update_participant_seq`
leaves. -/
theorem packet_handler_rejected_state (s : rtcp) (e : environment) (fl : Int) (f : rtp_frame)
    (p : rtcp_participant) (hp : s.participants_ f.ssrc = some p)
    (hrej : (s.update_participant_seq f.ssrc f.seq).1 ≠ RTP_OK) :
    s.packet_handler e fl f = (RTP_GENERIC_ERROR, (s.update_participant_seq f.ssrc f.seq).2) := by
  unfold rtcp.packet_handler
  simp only [rtcp.is_participant, hp, Option.isSome_some]
  simp [hrej]

/-- For a known SSRC whose frame `update_participant_seq` accepts, the
participant that `packet_handler` leaves has probation 0. -/
theorem packet_handler_accepted_probation (s : rtcp) (e : environment) (fl : Int)
    (f : rtp_frame) (p q : rtcp_participant) (hp : s.participants_ f.ssrc = some p)
    (hacc : (s.update_participant_seq f.ssrc f.seq).1 = RTP_OK)
    (hq : (s.packet_handler e fl f).2.participants_ f.ssrc = some q) :
    q.probation = 0 := by
  obtain ⟨q1, hq1, _, hprob, _⟩ := update_participant_seq_reception s f.ssrc f.seq p hp
  unfold rtcp.packet_handler at hq
  simp only [rtcp.is_participant, hp, Option.isSome_some] at hq
  simp [hacc, rtcp.update_session_statistics, hq1, update_statistics] at hq
  rw [← hq]
  exact hprob hacc

/-- C14: the code on the frame that promotes a new SSRC. The pending peer
(zeroed statistics, clock rate 90000) is promoted to SSRC 0xAA by its first RTP
frame. Once the sequence processing of that frame is done its probation counter
is 2, and `packet_handler` has nevertheless run the statistics update on it:
received_pkts = 1, received_bytes = 160, jitter = 112, transit = 1800, where
the claim has all five untouched while probation > 0. -/
theorem first_frame_counted_on_probation :
    pending_session.participants_ 0xAA = none ∧
    (pending_session.initial_participants_.map fun p =>
        (p.stats.received_pkts, p.stats.received_bytes, p.stats.dropped_pkts, p.stats.jitter,
          p.stats.transit)) = [(0, 0, 0, 0, 0)] ∧
    (feed pending_session sample_environment 0xAA [100]).1 = [RTP_PKT_NOT_HANDLED] ∧
    stats_view (feed pending_session sample_environment 0xAA [100]).2 0xAA
      = some (2, 1, 160, 0, 112, 1800) :=
  ⟨rfl, rfl, rfl, rfl⟩

/-- The two paths of `packet_handler` side by side. For a known SSRC the
reception statistics are not written when the probation counter is different
from 0 after the sequence processing, and the entry of an SSRC other than the
frame's is never written. For a new SSRC the path differs: the source is
promoted with probation 2 and the statistics update runs on the promoting frame
all the same, adding 1 to received_pkts. -/
theorem packet_handler_probation_statistics (s : rtcp) (e : environment) (fl : Int)
    (f : rtp_frame) :
    (∀ p q, s.participants_ f.ssrc = some p →
      (s.packet_handler e fl f).2.participants_ f.ssrc = some q → q.probation ≠ 0 →
      reception_stats (s.packet_handler e fl f).2 f.ssrc = reception_stats s f.ssrc) ∧
    (∀ k, k ≠ f.ssrc → (s.packet_handler e fl f).2.participants_ k = s.participants_ k) ∧
    (s.participants_ f.ssrc = none →
      ∃ q0, (s.init_new_participant e f).2.participants_ f.ssrc = some q0 ∧
        (s.packet_handler e fl f).2.participants_ f.ssrc
          = some (update_statistics q0 (e.diff_now q0.stats.initial_ntp % U64) f) ∧
        (update_statistics q0 (e.diff_now q0.stats.initial_ntp % U64) f).probation = 2 ∧
        (update_statistics q0 (e.diff_now q0.stats.initial_ntp % U64) f).stats.received_pkts
          = (q0.stats.received_pkts + 1) % 2 ^ 32) := by
  refine ⟨?_, ?_, ?_⟩
  · intro p q hp hq hprob
    by_cases hacc : (s.update_participant_seq f.ssrc f.seq).1 = RTP_OK
    · exact absurd (packet_handler_accepted_probation s e fl f p q hp hacc hq) hprob
    · rw [packet_handler_rejected_state s e fl f p hp hacc]
      obtain ⟨_, _, hrec, _, _⟩ := update_participant_seq_reception s f.ssrc f.seq p hp
      exact hrec
  · intro k hk
    exact packet_handler_other_entries s e fl f k hk
  · intro hnew
    cases hl : s.initial_participants_.getLast? <;>
    simp [rtcp.packet_handler, rtcp.is_participant, hnew, rtcp.init_new_participant,
      rtcp.add_participant_ssrc, rtcp.init_participant_seq, rtcp.update_session_statistics,
      update_statistics, MIN_SEQUENTIAL, hl, U32_eq]

/-- C15: whenever `update_participant_seq` rejects a packet of a known SSRC
(returns RTP_GENERIC_ERROR), `packet_handler` returns RTP_GENERIC_ERROR, the
session it leaves is the one `update_participant_seq` left (no statistics
update has run), and the participant's received_pkts, received_bytes,
dropped_pkts, jitter and transit are what they were before the call. -/
theorem packet_handler_rejected_not_counted (s : rtcp) (e : environment) (fl : Int)
    (f : rtp_frame) (hknown : s.is_participant f.ssrc = true)
    (hrej : (s.update_participant_seq f.ssrc f.seq).1 = RTP_GENERIC_ERROR) :
    (s.packet_handler e fl f).1 = RTP_GENERIC_ERROR ∧
    (s.packet_handler e fl f).2 = (s.update_participant_seq f.ssrc f.seq).2 ∧
    (s.packet_handler e fl f).2.is_participant f.ssrc = true ∧
    reception_stats (s.packet_handler e fl f).2 f.ssrc = reception_stats s f.ssrc := by
  unfold rtcp.is_participant at hknown
  obtain ⟨p, hp⟩ := Option.isSome_iff_exists.mp hknown
  have hne : (s.update_participant_seq f.ssrc f.seq).1 ≠ RTP_OK := by
    rw [hrej]; decide
  obtain ⟨q, hq, hrec, _, _⟩ := update_participant_seq_reception s f.ssrc f.seq p hp
  rw [packet_handler_rejected_state s e fl f p hp hne]
  exact ⟨rfl, rfl, by simp [rtcp.is_participant, hq], hrec⟩

/-- Witness for C15: SSRC 0xAA, promoted from the pending peer by frame 100
(received_pkts = 1, received_bytes = 160, jitter = 112, transit = 1800), sends
frame 101 while on probation. -/
theorem packet_handler_rejected_not_counted_witness :
    ((feed pending_session sample_environment 0xAA [100]).2.is_participant 0xAA = true ∧
      ((feed pending_session sample_environment 0xAA [100]).2.update_participant_seq
        0xAA 101).1 = RTP_GENERIC_ERROR ∧
      reception_stats (feed pending_session sample_environment 0xAA [100]).2 0xAA
        = some (1, 160, 0, 112, 1800)) ∧
    ((feed pending_session sample_environment 0xAA [100]).2.packet_handler one_second_later 0
      { ssrc := 0xAA, seq := 101, timestamp := 3000, payload_len := 200 }).1
        = RTP_GENERIC_ERROR ∧
    reception_stats ((feed pending_session sample_environment 0xAA [100]).2.packet_handler
      one_second_later 0 { ssrc := 0xAA, seq := 101, timestamp := 3000, payload_len := 200 }).2
        0xAA = reception_stats (feed pending_session sample_environment 0xAA [100]).2 0xAA :=
  have h := packet_handler_rejected_not_counted
    (feed pending_session sample_environment 0xAA [100]).2 one_second_later 0
    { ssrc := 0xAA, seq := 101, timestamp := 3000, payload_len := 200 } rfl rfl
  ⟨⟨rfl, rfl, rfl⟩, h.1, h.2.2.2⟩

/-! ## Adding a participant (rtcp.cc 93-152) -/

/-- C16: add_participant(dst_addr, dst_port, src_port, clock_rate) returns
RTP_INVALID_VALUE whenever dst_addr is empty or dst_port = 0 or src_port = 0, and
then the session, in particular the pending list and the socket list, is
unchanged. When the three are valid and every socket call returns RTP_OK it
returns RTP_OK, the pending list has exactly one more entry at its end, with
role RECEIVER, the given clock_rate and every other field that `zero_stats`
clears equal to 0 (`sr_ts`, which `zero_stats` leaves alone, is as allocated),
and the socket list has exactly one more socket at its end, the one of that
entry. -/
theorem add_participant_contract (s : rtcp) (fresh : rtcp_participant) (io : socket_calls)
    (dst_addr : String) (dst_port src_port clock_rate : Nat) :
    ((dst_addr = "" ∨ dst_port = 0 ∨ src_port = 0) →
      (s.add_participant fresh io dst_addr dst_port src_port clock_rate).1 = RTP_INVALID_VALUE ∧
      (s.add_participant fresh io dst_addr dst_port src_port clock_rate).2 = s ∧
      (s.add_participant fresh io dst_addr dst_port src_port clock_rate).2.initial_participants_
        = s.initial_participants_ ∧
      (s.add_participant fresh io dst_addr dst_port src_port clock_rate).2.sockets_
        = s.sockets_) ∧
    ((dst_addr ≠ "" ∧ dst_port ≠ 0 ∧ src_port ≠ 0) →
      (io.init_status = RTP_OK ∧ io.reuseaddr_status = RTP_OK ∧ io.rcvtimeo_status = RTP_OK ∧
        io.bind_status = RTP_OK) →
      (s.add_participant fresh io dst_addr dst_port src_port clock_rate).1 = RTP_OK ∧
      ∃ p sock,
        (s.add_participant fresh io dst_addr dst_port src_port clock_rate).2.initial_participants_
          = s.initial_participants_ ++ [p] ∧
        (s.add_participant fresh io dst_addr dst_port src_port clock_rate).2.sockets_
          = s.sockets_ ++ [sock] ∧
        p.socket = some sock ∧ sock.bound_port = src_port ∧
        p.address = io.create_sockaddr dst_addr dst_port ∧
        p.role = ROLE.RECEIVER ∧
        p.stats = { zero_stats fresh.stats with clock_rate := clock_rate } ∧
        p.stats.clock_rate = clock_rate ∧
        p.stats.received_pkts = 0 ∧ p.stats.dropped_pkts = 0 ∧ p.stats.received_bytes = 0 ∧
        p.stats.sent_pkts = 0 ∧ p.stats.sent_bytes = 0 ∧ p.stats.jitter = 0 ∧
        p.stats.transit = 0 ∧ p.stats.initial_ntp = 0 ∧ p.stats.initial_rtp = 0 ∧
        p.stats.lsr = 0 ∧ p.stats.max_seq = 0 ∧ p.stats.base_seq = 0 ∧ p.stats.bad_seq = 0 ∧
        p.stats.cycles = 0) := by
  constructor
  · intro hbad
    simp [rtcp.add_participant, hbad]
  · rintro ⟨ha, hd, hs⟩ ⟨h1, h2, h3, h4⟩
    simp [rtcp.add_participant, ha, hd, hs, h1, h2, h3, h4, zero_stats]

/-! ## The jitter estimator (rtcp.cc 385-390) -/

/-- The jitter that `update_session_statistics` stores: the exact value
`jitter + (d - jitter) / 16`, written `(16 * jitter + (d - jitter)) / 16`,
truncated towards zero and converted to `uint32_t`. -/
theorem update_statistics_jitter (p : rtcp_participant) (ms : Nat) (frame : rtp_frame) :
    (update_statistics p ms frame).stats.jitter
      = to_u32 (Int.tdiv (16 * (p.stats.jitter : Int)
          + (transit_delta p ms frame - (p.stats.jitter : Int))) 16) := by
  simp only [update_statistics, transit_delta, arrival]

/-- C17: the code on the first frame of the pending peer (clock rate 90000). The
promoted participant has stored jitter 0 and the frame, arriving 20 ms after
the start with timestamp 0, has d = 1800. The exact estimator value is
0 + (1800 - 0)/16 = 225/2 = 112.5; the jitter stored after
`update_session_statistics` is the integer 112, so the fractional part is lost
in the stored state. -/
theorem jitter_stored_truncated :
    ((pending_session.init_new_participant sample_environment
        { ssrc := 0xAA, seq := 100, timestamp := 0, payload_len := 160 }).2.participants_
          0xAA).map (fun p => (p.stats.jitter,
            transit_delta p 20 { ssrc := 0xAA, seq := 100, timestamp := 0, payload_len := 160 }))
      = some (0, 1800) ∧
    stats_view (pending_session.packet_handler sample_environment 0
      { ssrc := 0xAA, seq := 100, timestamp := 0, payload_len := 160 }).2 0xAA
      = some (2, 1, 160, 0, 112, 1800) ∧
    ((0 : ℚ) + (1800 - 0) / 16 = 225 / 2 ∧ (112 : ℚ) ≠ 225 / 2) :=
  ⟨rfl, rfl, by norm_num, by norm_num⟩

/-- One step with d = 0: the stored jitter does not grow, and it shrinks when it
is positive. -/
theorem steady_step_jitter (p : rtcp_participant) (ms : Nat) (frame : rtp_frame)
    (hd : transit_delta p ms frame = 0) :
    (update_statistics p ms frame).stats.jitter ≤ p.stats.jitter ∧
    (0 < p.stats.jitter → (update_statistics p ms frame).stats.jitter < p.stats.jitter) := by
  rw [update_statistics_jitter, hd]
  have hnn : (0 : Int) ≤ 16 * (p.stats.jitter : Int) + (0 - (p.stats.jitter : Int)) := by omega
  rw [Int.tdiv_eq_ediv hnn (by decide)]
  have h1 : (16 * (p.stats.jitter : Int) + (0 - (p.stats.jitter : Int))) / 16
      = ((15 * p.stats.jitter / 16 : Nat) : Int) := by omega
  have h2 : to_u32 ((15 * p.stats.jitter / 16 : Nat) : Int)
      = (15 * p.stats.jitter / 16) % 4294967296 := by
    unfold to_u32
    simp only [U32_eq]
    omega
  rw [h1, h2]
  have h3 := Nat.mod_le (15 * p.stats.jitter / 16) 4294967296
  constructor
  · omega
  · intro hpos
    omega

/-- C18: for every participant state and every run of frames through the
statistics update in which each frame has the transit of the one before
(d = 0 at every step), the stored jitter, a natural number and so never
negative, does not increase at any step, strictly decreases at a step where it
is positive, never exceeds its starting value, and is 0 once as many frames
have been handled as the starting value (so after finitely many). -/
theorem jitter_decays_to_zero (p : rtcp_participant) (inputs : List (Nat × rtp_frame))
    (hsteady : steady_transit p inputs) :
    (∀ ms frame, transit_delta p ms frame = 0 →
      0 ≤ (update_statistics p ms frame).stats.jitter ∧
      (update_statistics p ms frame).stats.jitter ≤ p.stats.jitter ∧
      (0 < p.stats.jitter → (update_statistics p ms frame).stats.jitter < p.stats.jitter)) ∧
    (run_statistics p inputs).stats.jitter ≤ p.stats.jitter ∧
    (p.stats.jitter ≤ inputs.length → (run_statistics p inputs).stats.jitter = 0) := by
  refine ⟨fun ms frame hd => ⟨Nat.zero_le _, steady_step_jitter p ms frame hd⟩, ?_, ?_⟩
  · induction inputs generalizing p with
    | nil => exact Nat.le_refl _
    | cons x rest ih =>
      obtain ⟨ms, frame⟩ := x
      obtain ⟨hd, hrest⟩ := hsteady
      exact Nat.le_trans (ih (update_statistics p ms frame) hrest)
        (steady_step_jitter p ms frame hd).1
  · induction inputs generalizing p with
    | nil =>
      intro hlen
      simp only [List.length_nil, Nat.le_zero] at hlen
      simpa [run_statistics] using hlen
    | cons x rest ih =>
      obtain ⟨ms, frame⟩ := x
      obtain ⟨hd, hrest⟩ := hsteady
      intro hlen
      have hstep := steady_step_jitter p ms frame hd
      apply ih (update_statistics p ms frame) hrest
      simp only [List.length_cons] at hlen
      by_cases hz : p.stats.jitter = 0
      · have := hstep.1
        omega
      · have := hstep.2 (Nat.pos_of_ne_zero hz)
        omega

/-- Witness for C18: a validated participant with stored jitter 3 and transit
1800 receives three frames with that same transit; the stored jitter goes
3, 2, 1, 0. -/
theorem jitter_decays_to_zero_witness :
    steady_transit settling_peer [steady_input, steady_input, steady_input] ∧
    (update_statistics settling_peer 20 steady_input.2).stats.jitter = 2 ∧
    (run_statistics settling_peer [steady_input, steady_input]).stats.jitter = 1 ∧
    (run_statistics settling_peer [steady_input, steady_input, steady_input]).stats.jitter
      ≤ settling_peer.stats.jitter ∧
    (run_statistics settling_peer [steady_input, steady_input, steady_input]).stats.jitter = 0 :=
  have h := jitter_decays_to_zero settling_peer [steady_input, steady_input, steady_input]
    ⟨rfl, rfl, rfl, trivial⟩
  ⟨⟨rfl, rfl, rfl, trivial⟩, rfl, rfl, h.2.1, h.2.2 (by decide)⟩

/-! ## Arrival time and loss count (rtcp.cc 370-386) -/

/-- The transit that `update_session_statistics` stores is the arrival time
minus the frame's timestamp, in 32-bit arithmetic. -/
theorem update_statistics_transit (p : rtcp_participant) (ms : Nat) (frame : rtp_frame) :
    (update_statistics p ms frame).stats.transit
      = to_u32 (to_i32 (arrival p.stats ms - frame.timestamp)) := by
  simp only [update_statistics, arrival]

/-- C19: the code at the claim's own example. A session adds a participant with
clock rate 44100; its first RTP frame (timestamp 0, so initial_rtp = 0) is
handled 1000 ms after the stored initial_ntp. The arrival time that
`update_session_statistics` uses is 0 + 1000 * (44100 / 1000) = 44000 RTP units
(the stored transit, arrival minus timestamp 0, is 44000), not
0 + (1000 * 44100) / 1000 = 44100. -/
theorem arrival_at_44100_hz :
    ((feed audio_session one_second_later 0xAA [100]).2.participants_ 0xAA).map
        (fun p => (p.stats.initial_rtp, p.stats.clock_rate, arrival p.stats 1000))
      = some (0, 44100, 44000) ∧
    stats_view (feed audio_session one_second_later 0xAA [100]).2 0xAA
      = some (2, 1, 160, 0, 2750, 44000) ∧
    (0 + (1000 * 44100) / 1000 = 44100 ∧ (44000 : Nat) ≠ 44100) :=
  ⟨rfl, rfl, by decide, by decide⟩

/-- The loss count that `update_session_statistics` stores: the difference
expected - received_pkts, with expected = cycles + max_seq - base_seq + 1,
reduced modulo 2^32. -/
theorem update_statistics_dropped (p : rtcp_participant) (ms : Nat) (frame : rtp_frame) :
    (update_statistics p ms frame).stats.dropped_pkts
      = to_u32 (((p.stats.cycles : Int) + p.stats.max_seq - p.stats.base_seq + 1)
          - (((p.stats.received_pkts + 1) % U32 : Nat) : Int)) :=
  rfl

/-- C20: the code when more packets have been received than expected. SSRC 0xAA
sends frames 100, 101, 102 to a new session; frame 102 validates the source
(base_seq = max_seq = 102, cycles = 0, so expected = 1) and is the second frame
counted (received_pkts = 2). After `update_session_statistics` the stored
dropped_pkts is 4294967295 = 2^32 - 1, where max(0, expected - received_pkts)
is 0. -/
theorem dropped_pkts_wraps :
    (feed new_session sample_environment 0xAA [100, 101, 102]).1
      = [RTP_PKT_NOT_HANDLED, RTP_GENERIC_ERROR, RTP_PKT_NOT_HANDLED] ∧
    seq_view (feed new_session sample_environment 0xAA [100, 101, 102]).2 0xAA
      = some (0, 102, 102, 1, 0, 2, 4294967295) ∧
    (max (0 : Int) (((0 : Int) + 102 - 102 + 1) - 2) = 0 ∧ (4294967295 : Nat) = 2 ^ 32 - 1) :=
  ⟨rfl, rfl, by decide, by decide⟩

/-! ## RTCP bandwidth accounting (rtcp.cc 176-181) -/

/-- C21, as stated, fails in the average. A new session (no packet counted, byte
count 0, average 0) receives a valid sender report of 100 bytes and then one of
36 bytes. After the first the average is 128 = 128 / 1, where the exponential
average gives 0 + (128 - 0) / 16 = 8; after the second it is 96 = 192 / 2, where
the exponential average from 128 gives 128 + (64 - 128) / 16 = 124. The counters
are as claimed: 1 packet and 128 bytes, then 2 packets and 192 bytes. -/
theorem average_is_cumulative_mean :
    (new_session.rtcp_pkt_count_, new_session.rtcp_byte_count_,
      new_session.avg_rtcp_pkt_pize_) = (0, 0, 0) ∧
    (new_session.handle_incoming_packet marking_handlers sr_buffer 100).1 = RTP_OK ∧
    ((new_session.handle_incoming_packet marking_handlers sr_buffer 100).2.rtcp_pkt_count_,
      (new_session.handle_incoming_packet marking_handlers sr_buffer 100).2.rtcp_byte_count_,
      (new_session.handle_incoming_packet marking_handlers sr_buffer 100).2.avg_rtcp_pkt_pize_)
      = (1, 128, 128) ∧
    (((new_session.handle_incoming_packet marking_handlers sr_buffer
        100).2.handle_incoming_packet marking_handlers sr_buffer 36).2.rtcp_pkt_count_,
      ((new_session.handle_incoming_packet marking_handlers sr_buffer
        100).2.handle_incoming_packet marking_handlers sr_buffer 36).2.rtcp_byte_count_,
      ((new_session.handle_incoming_packet marking_handlers sr_buffer
        100).2.handle_incoming_packet marking_handlers sr_buffer 36).2.avg_rtcp_pkt_pize_)
      = (2, 192, 96) ∧
    ((0 : ℚ) + ((100 + 28) - 0) / 16 = 8 ∧ (128 : ℚ) + ((36 + 28) - 128) / 16 = 124) :=
  ⟨rfl, rfl, rfl, rfl, by norm_num, by norm_num⟩

/-- C21 (amended): each call of `update_rtcp_bandwidth` with a packet size,
which `handle_incoming_packet` makes once for every packet that passes header
validation, increments rtcp_pkt_count_ by 1 and rtcp_byte_count_ by
size + 28, where 28 = UDP(8) + IP(20) header bytes (as long as the `size_t`
counters do not overflow), and sets the average packet size to the mean over
all counted packets, the new rtcp_byte_count_ divided by the new
rtcp_pkt_count_ with integer division; it is not an exponential average. Nothing
else in the session changes. -/
theorem update_rtcp_bandwidth_mean (s : rtcp) (size : Nat)
    (hcount : s.rtcp_pkt_count_ + 1 < 2 ^ 64)
    (hbytes : s.rtcp_byte_count_ + (size + 28) < 2 ^ 64) :
    UDP_HEADER_SIZE + IP_HEADER_SIZE = 28 ∧
    (s.update_rtcp_bandwidth size).rtcp_pkt_count_ = s.rtcp_pkt_count_ + 1 ∧
    (s.update_rtcp_bandwidth size).rtcp_byte_count_ = s.rtcp_byte_count_ + (size + 28) ∧
    (s.update_rtcp_bandwidth size).avg_rtcp_pkt_pize_
      = (s.rtcp_byte_count_ + (size + 28)) / (s.rtcp_pkt_count_ + 1) ∧
    (s.update_rtcp_bandwidth size).avg_rtcp_pkt_pize_
      = (s.update_rtcp_bandwidth size).rtcp_byte_count_
          / (s.update_rtcp_bandwidth size).rtcp_pkt_count_ ∧
    s.update_rtcp_bandwidth size
      = { s with
          rtcp_pkt_count_ := s.rtcp_pkt_count_ + 1,
          rtcp_byte_count_ := s.rtcp_byte_count_ + (size + 28),
          avg_rtcp_pkt_pize_ := (s.rtcp_byte_count_ + (size + 28)) / (s.rtcp_pkt_count_ + 1) } := by
  have h1 : (s.rtcp_pkt_count_ + 1) % 18446744073709551616 = s.rtcp_pkt_count_ + 1 :=
    Nat.mod_eq_of_lt (by simpa using hcount)
  have h2 : (s.rtcp_byte_count_ + (size + 8 + 20)) % 18446744073709551616
      = s.rtcp_byte_count_ + (size + 28) := by
    have : size + 8 + 20 = size + 28 := by omega
    rw [this]
    exact Nat.mod_eq_of_lt (by simpa using hbytes)
  simp [rtcp.update_rtcp_bandwidth, UDP_HEADER_SIZE, IP_HEADER_SIZE, U64, h1, h2]

/-- Witness for C21 (amended): a session that has counted one packet of 128
bytes counts a second packet of 36 bytes. -/
theorem update_rtcp_bandwidth_mean_witness :
    ((new_session.update_rtcp_bandwidth 100).rtcp_pkt_count_ + 1 < 2 ^ 64 ∧
      (new_session.update_rtcp_bandwidth 100).rtcp_byte_count_ + (36 + 28) < 2 ^ 64) ∧
    ((new_session.update_rtcp_bandwidth 100).update_rtcp_bandwidth 36).rtcp_pkt_count_
      = (new_session.update_rtcp_bandwidth 100).rtcp_pkt_count_ + 1 ∧
    ((new_session.update_rtcp_bandwidth 100).update_rtcp_bandwidth 36).avg_rtcp_pkt_pize_
      = ((new_session.update_rtcp_bandwidth 100).rtcp_byte_count_ + (36 + 28))
          / ((new_session.update_rtcp_bandwidth 100).rtcp_pkt_count_ + 1) ∧
    ((new_session.update_rtcp_bandwidth 100).update_rtcp_bandwidth 36).avg_rtcp_pkt_pize_ = 96 :=
  have h := update_rtcp_bandwidth_mean (new_session.update_rtcp_bandwidth 100) 36
    (by decide) (by decide)
  ⟨⟨by decide, by decide⟩, h.2.1, h.2.2.2.1, rfl⟩

/-! ## Duplicates and reordered packets (rtcp.cc 309-313) -/

/-- C24: for every validated source (probation = 0) and every sequence number
with udelta = (seq - max_seq) mod 2^16 > 2^16 - MAX_MISORDER,
`update_participant_seq` returns RTP_OK and leaves the whole session as it was,
so the participant's max_seq, base_seq, bad_seq, cycles and probation are
unchanged. -/
theorem update_participant_seq_duplicate (s : rtcp) (ssrc seq : Nat) (p : rtcp_participant)
    (hp : s.participants_ ssrc = some p) (hprob : p.probation = 0)
    (hdup : 2 ^ 16 - MAX_MISORDER < (seq + 2 ^ 16 - p.stats.max_seq) % 2 ^ 16) :
    (s.update_participant_seq ssrc seq).1 = RTP_OK ∧
    (s.update_participant_seq ssrc seq).2 = s ∧
    ∃ q, (s.update_participant_seq ssrc seq).2.participants_ ssrc = some q ∧
      q.stats.max_seq = p.stats.max_seq ∧ q.stats.base_seq = p.stats.base_seq ∧
      q.stats.bad_seq = p.stats.bad_seq ∧ q.stats.cycles = p.stats.cycles ∧
      q.probation = p.probation := by
  simp only [MAX_MISORDER] at hdup
  norm_num at hdup
  have key : s.update_participant_seq ssrc seq = (RTP_OK, s) := by
    unfold rtcp.update_participant_seq
    simp only [hp, hprob, U16_eq, RTP_SEQ_MOD_eq, MAX_DROPOUT, MAX_MISORDER]
    rw [if_neg (by simp), if_neg (by omega), if_neg (by omega)]
  rw [key]
  exact ⟨rfl, rfl, p, hp, rfl, rfl, rfl, rfl, rfl⟩

/-- Witness for C24: SSRC 0xAA is validated by frames 4998, 4999, 5000; the
sequence number 4990 arrives late (udelta = 65526). -/
theorem update_participant_seq_duplicate_witness :
    (seq_view (feed new_session sample_environment 0xAA [4998, 4999, 5000]).2 0xAA
        = some (0, 5000, 5000, 1, 0, 2, 4294967295) ∧
      2 ^ 16 - MAX_MISORDER < (4990 + 2 ^ 16 - 5000) % 2 ^ 16) ∧
    ((feed new_session sample_environment 0xAA [4998, 4999, 5000]).2.update_participant_seq
      0xAA 4990).1 = RTP_OK ∧
    seq_view ((feed new_session sample_environment 0xAA [4998, 4999, 5000]).2.update_participant_seq
      0xAA 4990).2 0xAA = some (0, 5000, 5000, 1, 0, 2, 4294967295) :=
  have h := update_participant_seq_duplicate
    (feed new_session sample_environment 0xAA [4998, 4999, 5000]).2 0xAA 4990
    { blank_participant with
      probation := 0,
      stats := { blank_stats with
        received_pkts := 2, received_bytes := 320, dropped_pkts := 4294967295,
        initial_ntp := 1000, base_seq := 5000, max_seq := 5000, bad_seq := 1 } }
    rfl rfl (by decide)
  ⟨⟨rfl, by decide⟩, h.1, by rw [h.2.1]; rfl⟩

/-! ## Truncated RTCP packets (rtcp.cc 430-452) -/

/-- C25: the code on a truncated packet. A buffer of size 2, smaller than the
4-byte common header, at whose start the code finds version 2, no padding and
packet type 200, is not rejected: the size is never compared with the header
length, the packet is dispatched to the sender report handler, the call returns
that handler's RTP_OK instead of RTP_INVALID_VALUE, and the session has changed
(one packet of 2 + 28 bytes counted, the handler's mark left). -/
theorem truncated_packet_dispatched :
    (2 : Nat) < 4 ∧
    (new_session.handle_incoming_packet marking_handlers sr_buffer 2).1 = RTP_OK ∧
    ((new_session.handle_incoming_packet marking_handlers sr_buffer 2).2.rtcp_pkt_count_,
      (new_session.handle_incoming_packet marking_handlers sr_buffer 2).2.rtcp_byte_count_,
      (new_session.handle_incoming_packet marking_handlers sr_buffer 2).2.avg_rtcp_pkt_pize_,
      (new_session.handle_incoming_packet marking_handlers sr_buffer 2).2.rtcp_bandwidth_)
      = (1, 30, 30, 200) ∧
    (new_session.rtcp_pkt_count_, new_session.rtcp_byte_count_,
      new_session.avg_rtcp_pkt_pize_, new_session.rtcp_bandwidth_) = (0, 0, 0, 0) :=
  ⟨by decide, rfl, rfl, rfl⟩

/-! ## Probation at the end of the sequence space (rtcp.cc 276-289) -/

/-- A source on probation whose max_seq is 65535 has no in-sequence successor:
every 16-bit sequence number restarts probation. -/
theorem probation_restarts_after_65535 (s : rtcp) (ssrc seq : Nat) (p : rtcp_participant)
    (hp : s.participants_ ssrc = some p) (hprob : p.probation ≠ 0)
    (hmax : p.stats.max_seq = 65535) (hseq : seq < 2 ^ 16) :
    s.update_participant_seq ssrc seq
      = (RTP_GENERIC_ERROR, s.set_participant ssrc
          { p with probation := MIN_SEQUENTIAL - 1, stats := { p.stats with max_seq := seq } }) := by
  have hne : ¬ seq = 65535 + 1 := by
    norm_num at hseq
    omega
  unfold rtcp.update_participant_seq
  simp only [hp, hmax]
  rw [if_pos hprob, if_neg hne]

/-- C26: the code at max_seq = 65535 on probation. SSRC 0xAA is promoted by
frame 65534 (probation 2) and frame 65535 is in sequence (probation 1,
max_seq = 65535). The next frame has sequence number 0, the successor of 65535
modulo 2^16. It is not taken as in sequence: `update_participant_seq` returns
RTP_GENERIC_ERROR and restarts probation (probation stays 1, max_seq = 0,
base_seq still 65534), where the claim has probation decremented to 0 and the
source validated. -/
theorem probation_at_wrap :
    (65535 + 1) % 2 ^ 16 = 0 ∧
    seq_view (feed new_session sample_environment 0xAA [65534, 65535]).2 0xAA
      = some (1, 65534, 65535, 1, 0, 1, 0) ∧
    ((feed new_session sample_environment 0xAA [65534, 65535]).2.update_participant_seq
      0xAA 0).1 = RTP_GENERIC_ERROR ∧
    seq_view ((feed new_session sample_environment 0xAA [65534, 65535]).2.update_participant_seq
      0xAA 0).2 0xAA = some (1, 65534, 0, 1, 0, 1, 0) ∧
    (feed new_session sample_environment 0xAA [65534, 65535, 0]).1
      = [RTP_PKT_NOT_HANDLED, RTP_GENERIC_ERROR, RTP_GENERIC_ERROR] :=
  ⟨by decide, rfl, rfl, rfl, rfl⟩

/-! ## The probation counter (rtcp.cc 238-242, 266-314) -/

/-- One call of `update_participant_seq`, for any SSRC and sequence number, keeps
a participant with 0 <= probation <= 2 in the table with 0 <= probation <= 2,
and keeps probation 0 at 0. -/
theorem update_participant_seq_probation (s : rtcp) (ssrc seq k : Nat) (p : rtcp_participant)
    (hp : s.participants_ k = some p) (hlo : 0 ≤ p.probation) (hhi : p.probation ≤ 2) :
    ∃ q, (s.update_participant_seq ssrc seq).2.participants_ k = some q ∧
      0 ≤ q.probation ∧ q.probation ≤ 2 ∧ (p.probation = 0 → q.probation = 0) := by
  by_cases hk : k = ssrc
  · subst hk
    unfold rtcp.update_participant_seq
    simp only [hp]
    split_ifs <;>
      first
      | (simp_all [rtcp.init_participant_seq, MIN_SEQUENTIAL]; done)
      | (simp_all [rtcp.init_participant_seq, MIN_SEQUENTIAL]; omega)
  · unfold rtcp.update_participant_seq
    cases hs : s.participants_ ssrc with
    | none => exact ⟨p, by simpa using hp, hlo, hhi, fun h => h⟩
    | some r =>
      refine ⟨p, ?_, hlo, hhi, fun h => h⟩
      simp only []
      split_ifs <;>
      simp_all [rtcp.init_participant_seq, rtcp.set_participant]

/-- One call of `packet_handler`, for a frame of any SSRC, keeps a participant
with 0 <= probation <= 2 in the table with 0 <= probation <= 2, and keeps
probation 0 at 0. -/
theorem packet_handler_probation (s : rtcp) (e : environment) (fl : Int) (f : rtp_frame)
    (k : Nat) (p : rtcp_participant)
    (hp : s.participants_ k = some p) (hlo : 0 ≤ p.probation) (hhi : p.probation ≤ 2) :
    ∃ q, (s.packet_handler e fl f).2.participants_ k = some q ∧
      0 ≤ q.probation ∧ q.probation ≤ 2 ∧ (p.probation = 0 → q.probation = 0) := by
  by_cases hk : k = f.ssrc
  · subst hk
    obtain ⟨q, hq, h1, h2, h3⟩ := update_participant_seq_probation s f.ssrc f.seq f.ssrc p hp hlo hhi
    by_cases hacc : (s.update_participant_seq f.ssrc f.seq).1 = RTP_OK
    · refine ⟨update_statistics q (e.diff_now q.stats.initial_ntp % U64) f, ?_, ?_⟩
      · unfold rtcp.packet_handler
        simp only [rtcp.is_participant, hp, Option.isSome_some]
        simp [hacc, rtcp.update_session_statistics, hq]
      · simpa [update_statistics] using ⟨h1, h2, h3⟩
    · rw [packet_handler_rejected_state s e fl f p hp hacc]
      exact ⟨q, hq, h1, h2, h3⟩
  · rw [packet_handler_other_entries s e fl f k hk]
    exact ⟨p, hp, hlo, hhi, fun h => h⟩

/-- A run of `packet_handler` over any frames keeps a participant with
0 <= probation <= 2 in the table with 0 <= probation <= 2, and keeps probation
0 at 0. -/
theorem run_frames_probation (frames : List (environment × rtp_frame)) (s : rtcp) (k : Nat)
    (p : rtcp_participant)
    (hp : s.participants_ k = some p) (hlo : 0 ≤ p.probation) (hhi : p.probation ≤ 2) :
    ∃ q, (run_frames s frames).participants_ k = some q ∧
      0 ≤ q.probation ∧ q.probation ≤ 2 ∧ (p.probation = 0 → q.probation = 0) := by
  induction frames generalizing s p with
  | nil => exact ⟨p, hp, hlo, hhi, fun h => h⟩
  | cons x rest ih =>
    obtain ⟨e, f⟩ := x
    obtain ⟨q, hq, h1, h2, h3⟩ := packet_handler_probation s e 0 f k p hp hlo hhi
    obtain ⟨r, hr, r1, r2, r3⟩ := ih (s.packet_handler e 0 f).2 q hq h1 h2
    exact ⟨r, hr, r1, r2, fun h => r3 (h3 h)⟩

/-- The session after a run over `frames ++ more` is the session after the run
over `more` started from the session after `frames`. -/
theorem run_frames_append (frames more : List (environment × rtp_frame)) (s : rtcp) :
    run_frames s (frames ++ more) = run_frames (run_frames s frames) more := by
  induction frames generalizing s with
  | nil => rfl
  | cons x rest ih =>
    obtain ⟨e, f⟩ := x
    simpa [run_frames] using ih (s.packet_handler e 0 f).2

/-- C27: for every session, every frame of an SSRC the session does not know
(which `packet_handler` promotes through `init_new_participant`) and every
sequence of later frames, of this or of any other SSRC, processed by
`packet_handler`: the participant stays in the table with
0 <= probation <= MIN_SEQUENTIAL = 2, and if its probation counter is 0 after
the frames so far, it is 0 after any further frames, whether they are in order,
duplicates, or the packets of a large jump and its resync. -/
theorem probation_bounded_and_final (s : rtcp) (e : environment) (f0 : rtp_frame)
    (hnew : s.participants_ f0.ssrc = none) (frames more : List (environment × rtp_frame)) :
    MIN_SEQUENTIAL = 2 ∧
    (∃ q, (run_frames (s.packet_handler e 0 f0).2 frames).participants_ f0.ssrc = some q ∧
      0 ≤ q.probation ∧ q.probation ≤ MIN_SEQUENTIAL) ∧
    (∀ q, (run_frames (s.packet_handler e 0 f0).2 frames).participants_ f0.ssrc = some q →
      q.probation = 0 →
      ∃ r, (run_frames (s.packet_handler e 0 f0).2 (frames ++ more)).participants_ f0.ssrc
          = some r ∧ r.probation = 0) := by
  obtain ⟨_, p, hp, hprob, _, _⟩ := packet_handler_first_frame s e 0 f0 hnew
  obtain ⟨q, hq, h1, h2, _⟩ := run_frames_probation frames (s.packet_handler e 0 f0).2 f0.ssrc p hp
    (by omega) (by omega)
  refine ⟨rfl, ⟨q, hq, h1, by simpa [MIN_SEQUENTIAL] using h2⟩, ?_⟩
  intro q' hq' hzero
  rw [run_frames_append]
  obtain ⟨r, hr, _, _, r3⟩ := run_frames_probation more
    (run_frames (s.packet_handler e 0 f0).2 frames) f0.ssrc q' hq' (by omega) (by omega)
  exact ⟨r, hr, r3 hzero⟩

/-- Witness for C27: SSRC 0xAA is promoted by frame 100 in a new session; after
frames 101 and 102 its probation counter is 0, and it is still 0 after the
large jump 40000 and its resync 40001. -/
theorem probation_bounded_and_final_witness :
    new_session.participants_ 0xAA = none ∧
    seq_view (run_frames (new_session.packet_handler sample_environment 0
      { ssrc := 0xAA, seq := 100, timestamp := 0, payload_len := 160 }).2
        (frames_of [101, 102])) 0xAA = some (0, 102, 102, 1, 0, 2, 4294967295) ∧
    ∃ r, (run_frames (new_session.packet_handler sample_environment 0
        { ssrc := 0xAA, seq := 100, timestamp := 0, payload_len := 160 }).2
          (frames_of [101, 102] ++ frames_of [40000, 40001])).participants_ 0xAA = some r ∧
      r.probation = 0 :=
  have h := probation_bounded_and_final new_session sample_environment
    { ssrc := 0xAA, seq := 100, timestamp := 0, payload_len := 160 } rfl
    (frames_of [101, 102]) (frames_of [40000, 40001])
  ⟨rfl, rfl, h.2.2
    { blank_participant with
      probation := 0,
      stats := { blank_stats with
        received_pkts := 2, received_bytes := 320, dropped_pkts := 4294967295,
        initial_ntp := 1000, base_seq := 102, max_seq := 102, bad_seq := 1 } }
    rfl rfl⟩

/-! ## The expected-packet count (rtcp.cc 290-296, 373-377) -/

/-- The loss count that `update_session_statistics` stores is the expected
count of the stored sequence state minus the new received_pkts, as `uint32_t`. -/
theorem update_statistics_expected (p : rtcp_participant) (ms : Nat) (frame : rtp_frame) :
    (update_statistics p ms frame).stats.dropped_pkts
      = to_u32 (expected_pkts p.stats - (((p.stats.received_pkts + 1) % U32 : Nat) : Int)) ∧
    expected_pkts (update_statistics p ms frame).stats = expected_pkts p.stats := by
  simp only [update_statistics, expected_pkts, and_self]

/-- C23: the code after the sequence number wraps from 0xFFFF to 0x0000. SSRC
0xAA is validated by frames 65533, 65534, 65535 (base_seq = max_seq = 65535) and
then sends frame 0, which `packet_handler` accepts in order. After that packet
max_seq = 0 and cycles is still 0, so extended_max = cycles + max_seq = 0 is
below base_seq = 65535, and the expected-packet count that
`update_session_statistics` computes is 0 - 65535 + 1 = -65534 (stored
dropped_pkts = (-65534 - 3) mod 2^32 = 4294901759), where the claim has
base_seq <= extended_max and an expected count of at least 1. -/
theorem expected_negative_after_wrap :
    (feed new_session sample_environment 0xAA [65533, 65534, 65535, 0]).1
      = [RTP_PKT_NOT_HANDLED, RTP_GENERIC_ERROR, RTP_PKT_NOT_HANDLED, RTP_PKT_NOT_HANDLED] ∧
    seq_view (feed new_session sample_environment 0xAA [65533, 65534, 65535, 0]).2 0xAA
      = some (0, 65535, 0, 1, 0, 3, 4294901759) ∧
    ((feed new_session sample_environment 0xAA [65533, 65534, 65535, 0]).2.participants_
        0xAA).map (fun p => (expected_pkts p.stats,
          decide (p.stats.base_seq ≤ p.stats.cycles + p.stats.max_seq)))
      = some (-65534, false) ∧
    to_u32 (-65534 - 3) = 4294901759 :=
  ⟨rfl, rfl, rfl, rfl⟩

/-- When `update_participant_seq` accepts a frame of a known source, and the
frame is not an in-order frame of a validated source with a sequence number
below max_seq, then base_seq <= cycles + max_seq holds afterwards; for a
validated source this uses that it held before, for a source on probation the
accepting frame re-bases base_seq. -/
theorem update_participant_seq_base_le (s : rtcp) (ssrc seq : Nat) (p : rtcp_participant)
    (hp : s.participants_ ssrc = some p)
    (hacc : (s.update_participant_seq ssrc seq).1 = RTP_OK)
    (hinv : p.probation = 0 → p.stats.base_seq ≤ p.stats.cycles + p.stats.max_seq)
    (hnowrap : ¬ (p.probation = 0 ∧ (seq + 2 ^ 16 - p.stats.max_seq) % 2 ^ 16 < MAX_DROPOUT ∧
      seq < p.stats.max_seq)) :
    ∃ q, (s.update_participant_seq ssrc seq).2.participants_ ssrc = some q ∧
      q.stats.base_seq ≤ q.stats.cycles + q.stats.max_seq := by
  simp only [MAX_DROPOUT] at hnowrap
  norm_num at hnowrap
  by_cases h0 : p.probation = 0
  · have hinv0 := hinv h0
    by_cases hlt : (seq + 65536 - p.stats.max_seq) % 65536 < 3000
    · have hge : p.stats.max_seq ≤ seq := hnowrap h0 hlt
      refine ⟨{ p with stats := { p.stats with cycles := p.stats.cycles, max_seq := seq } }, ?_, ?_⟩
      · unfold rtcp.update_participant_seq
        simp only [hp, h0, U16_eq, RTP_SEQ_MOD_eq, MAX_DROPOUT]
        rw [if_neg (by simp), if_pos hlt, if_neg (by omega)]
        simp
      · simp only []
        omega
    · unfold rtcp.update_participant_seq at hacc ⊢
      simp only [hp, h0, U16_eq, RTP_SEQ_MOD_eq, MAX_DROPOUT, MAX_MISORDER] at hacc ⊢
      rw [if_neg (by simp), if_neg hlt] at hacc ⊢
      split_ifs at hacc ⊢ <;> simp_all [rtcp.init_participant_seq]
  · unfold rtcp.update_participant_seq at hacc ⊢
    simp only [hp] at hacc ⊢
    rw [if_pos h0] at hacc ⊢
    split_ifs at hacc ⊢
    simp_all [rtcp.init_participant_seq]

/-- Away from the 0xFFFF to 0x0000 crossing the expected-packet count is
positive whenever it is computed: for every frame that `packet_handler` accepts
(it returns RTP_PKT_NOT_HANDLED, which are the frames for which
`update_session_statistics` runs), base_seq <= cycles + max_seq holds after the
packet and `extended_max - base_seq + 1` is at least 1, when the frame comes
from a new SSRC, or completes probation, or belongs to a validated source for
which the inequality held before and is not an in-order frame with a sequence
number numerically below max_seq. -/
theorem packet_handler_expected_positive (s : rtcp) (e : environment) (fl : Int)
    (f : rtp_frame) :
    (s.participants_ f.ssrc = none →
      ∃ q, (s.packet_handler e fl f).2.participants_ f.ssrc = some q ∧
        q.stats.base_seq ≤ q.stats.cycles + q.stats.max_seq ∧ 1 ≤ expected_pkts q.stats) ∧
    (∀ p, s.participants_ f.ssrc = some p →
      (s.packet_handler e fl f).1 = RTP_PKT_NOT_HANDLED →
      (p.probation = 0 → p.stats.base_seq ≤ p.stats.cycles + p.stats.max_seq) →
      ¬ (p.probation = 0 ∧ (f.seq + 2 ^ 16 - p.stats.max_seq) % 2 ^ 16 < MAX_DROPOUT ∧
        f.seq < p.stats.max_seq) →
      ∃ q, (s.packet_handler e fl f).2.participants_ f.ssrc = some q ∧
        q.stats.base_seq ≤ q.stats.cycles + q.stats.max_seq ∧ 1 ≤ expected_pkts q.stats) := by
  constructor
  · intro hnew
    cases hl : s.initial_participants_.getLast? <;>
    simp [rtcp.packet_handler, rtcp.is_participant, hnew, rtcp.init_new_participant,
      rtcp.add_participant_ssrc, rtcp.init_participant_seq, rtcp.update_session_statistics,
      update_statistics, expected_pkts, hl]
  · intro p hp hstatus hinv hnowrap
    have hacc : (s.update_participant_seq f.ssrc f.seq).1 = RTP_OK := by
      rw [packet_handler_known_status s e fl f p hp] at hstatus
      by_contra hne
      simp [hne] at hstatus
    obtain ⟨q, hq, hle⟩ := update_participant_seq_base_le s f.ssrc f.seq p hp hacc hinv hnowrap
    refine ⟨update_statistics q (e.diff_now q.stats.initial_ntp % U64) f, ?_, ?_, ?_⟩
    · unfold rtcp.packet_handler
      simp only [rtcp.is_participant, hp, Option.isSome_some]
      simp [hacc, rtcp.update_session_statistics, hq]
    · simpa [update_statistics] using hle
    · rw [(update_statistics_expected q _ f).2]
      unfold expected_pkts
      omega

/-! ## Member and sender estimates (rtcp.cc 20-35, 59-91, 228-252) -/

/-- Writing a table entry leaves the member and the sender estimate alone. -/
theorem set_participant_estimates (s : rtcp) (k : Nat) (p : rtcp_participant) :
    (s.set_participant k p).members_ = s.members_ ∧
    (s.set_participant k p).senders_ = s.senders_ :=
  ⟨rfl, rfl⟩

/-- `update_participant_seq` leaves the member and the sender estimate alone. -/
theorem update_participant_seq_estimates (s : rtcp) (ssrc seq : Nat) :
    (s.update_participant_seq ssrc seq).2.members_ = s.members_ ∧
    (s.update_participant_seq ssrc seq).2.senders_ = s.senders_ := by
  unfold rtcp.update_participant_seq
  cases hp : s.participants_ ssrc with
  | none => exact ⟨rfl, rfl⟩
  | some p =>
    simp only []
    split_ifs <;> simp [rtcp.init_participant_seq, hp, rtcp.set_participant]

/-- `update_session_statistics` leaves the member and the sender estimate
alone. -/
theorem update_session_statistics_estimates (s : rtcp) (e : environment) (f : rtp_frame) :
    (s.update_session_statistics e f).members_ = s.members_ ∧
    (s.update_session_statistics e f).senders_ = s.senders_ := by
  unfold rtcp.update_session_statistics
  cases s.participants_ f.ssrc <;> exact ⟨rfl, rfl⟩

/-- `packet_handler` never writes the member estimate; it leaves the sender
estimate alone for a frame of a known SSRC and adds 1 to it (in `size_t`
arithmetic) for a frame of a new SSRC. -/
theorem packet_handler_estimates (s : rtcp) (e : environment) (fl : Int) (f : rtp_frame) :
    (s.packet_handler e fl f).2.members_ = s.members_ ∧
    (s.is_participant f.ssrc = true → (s.packet_handler e fl f).2.senders_ = s.senders_) ∧
    (s.is_participant f.ssrc = false →
      (s.packet_handler e fl f).2.senders_ = (s.senders_ + 1) % 2 ^ 64) := by
  cases hp : s.participants_ f.ssrc with
  | none =>
    cases hl : s.initial_participants_.getLast? <;>
    simp [rtcp.packet_handler, rtcp.is_participant, hp, rtcp.init_new_participant,
      rtcp.add_participant_ssrc, rtcp.init_participant_seq, rtcp.update_session_statistics,
      rtcp.set_participant, hl, U64]
  | some p =>
    have hu := update_participant_seq_estimates s f.ssrc f.seq
    have hst := update_session_statistics_estimates (s.update_participant_seq f.ssrc f.seq).2 e f
    unfold rtcp.packet_handler
    simp only [rtcp.is_participant, hp, Option.isSome_some]
    split_ifs <;> simp_all

/-- C22: the code after the first RTP frame of a new SSRC. A newly constructed
session has senders_ = 0 and members_ = 0; `packet_handler` promotes SSRC 0xAA
through `init_new_participant`, which increments senders_ and leaves members_
alone: the sender estimate is 1 and the member estimate is still 0, so
senders <= members does not hold. -/
theorem senders_exceed_members :
    (new_session.senders_, new_session.members_) = (0, 0) ∧
    (feed new_session sample_environment 0xAA [100]).1 = [RTP_PKT_NOT_HANDLED] ∧
    ((feed new_session sample_environment 0xAA [100]).2.senders_,
      (feed new_session sample_environment 0xAA [100]).2.members_) = (1, 0) ∧
    ¬ ((feed new_session sample_environment 0xAA [100]).2.senders_
      ≤ (feed new_session sample_environment 0xAA [100]).2.members_) :=
  ⟨rfl, rfl, rfl, by decide⟩

/-- In every session state reachable from a newly constructed session through
start, add_participant, packet_handler, handle_incoming_packet,
reset_rtcp_state and stop, with handlers and a `send_bye_packet` that do not
write the two estimates, the member estimate is 0 (nothing in rtcp.cc counts
members) and the sender estimate is the number of SSRCs that `packet_handler`
has promoted (modulo 2^64). So senders <= members holds exactly as long as that
number is 0 modulo 2^64. -/
theorem reachable_estimates (h : rtcp_handlers)
    (send_bye_packet : rtcp → List Nat → rtp_error_t × rtcp)
    (hh : handlers_keep_estimates h) (hb : bye_keeps_estimates send_bye_packet)
    (n : Nat) (s : rtcp) (hr : reachable h send_bye_packet n s) :
    s.members_ = 0 ∧ s.senders_ = n % 2 ^ 64 ∧ (s.senders_ ≤ s.members_ ↔ n % 2 ^ 64 = 0) := by
  have key : s.members_ = 0 ∧ s.senders_ = n % 2 ^ 64 := by
    induction hr with
    | constructed ssrc clock_rate garbage => exact ⟨rfl, rfl⟩
    | started n s _ ih =>
      unfold rtcp.start
      split_ifs <;> exact ih
    | added n s fresh io dst_addr dst_port src_port clock_rate _ ih =>
      unfold rtcp.add_participant
      split_ifs <;> exact ih
    | frame_known n s e fl f _ hknown ih =>
      obtain ⟨hm, hs, _⟩ := packet_handler_estimates s e fl f
      exact ⟨hm.trans ih.1, (hs hknown).trans ih.2⟩
    | frame_new n s e fl f _ hnew ih =>
      obtain ⟨hm, _, hs⟩ := packet_handler_estimates s e fl f
      refine ⟨hm.trans ih.1, ?_⟩
      rw [hs hnew, ih.2]
      omega
    | incoming n s buffer size _ ih =>
      obtain ⟨h1, h2, h3, h4, h5⟩ := hh (s.update_rtcp_bandwidth size) buffer size
      have hbw : (s.update_rtcp_bandwidth size).members_ = s.members_ ∧
          (s.update_rtcp_bandwidth size).senders_ = s.senders_ := ⟨rfl, rfl⟩
      unfold rtcp.handle_incoming_packet
      simp only []
      split_ifs <;> simp_all
    | reset n s ssrc _ ih =>
      unfold rtcp.reset_rtcp_state
      split_ifs <;> exact ih
    | stopped n s _ ih =>
      have hmem : s.members_ < 50 := by rw [ih.1]; decide
      obtain ⟨h1, h2⟩ := hb { s with active_ := false } [s.ssrc_]
      unfold rtcp.stop rtcp.terminate_self
      by_cases hrun : s.runner_ = true
      · rw [if_neg (not_not.mpr hrun), if_pos hmem]
        exact ⟨h1.trans ih.1, h2.trans ih.2⟩
      · rw [if_pos hrun]
        exact ih
  refine ⟨key.1, key.2, ?_⟩
  rw [key.1, key.2]
  omega

/-- An instance of the reachable states: a newly constructed session in which
SSRC 0xAA has been promoted by its first RTP frame and a sender report has then
been handled: one promotion, senders_ = 1, members_ = 0. -/
theorem reachable_estimates_instance :
    (handlers_keep_estimates marking_handlers ∧ bye_keeps_estimates quiet_bye ∧
      reachable marking_handlers quiet_bye 1
        ((new_session.packet_handler sample_environment 0
          { ssrc := 0xAA, seq := 100, timestamp := 0, payload_len := 160 }).2.handle_incoming_packet
            marking_handlers sr_buffer 100).2) ∧
    ((new_session.packet_handler sample_environment 0
        { ssrc := 0xAA, seq := 100, timestamp := 0, payload_len := 160 }).2.handle_incoming_packet
          marking_handlers sr_buffer 100).2.members_ = 0 ∧
    ((new_session.packet_handler sample_environment 0
        { ssrc := 0xAA, seq := 100, timestamp := 0, payload_len := 160 }).2.handle_incoming_packet
          marking_handlers sr_buffer 100).2.senders_ = 1 % 2 ^ 64 :=
  have hh : handlers_keep_estimates marking_handlers :=
    fun _ _ _ => ⟨⟨rfl, rfl⟩, ⟨rfl, rfl⟩, ⟨rfl, rfl⟩, ⟨rfl, rfl⟩, ⟨rfl, rfl⟩⟩
  have hb : bye_keeps_estimates quiet_bye := fun _ _ => ⟨rfl, rfl⟩
  have hr : reachable marking_handlers quiet_bye 1
      ((new_session.packet_handler sample_environment 0
        { ssrc := 0xAA, seq := 100, timestamp := 0, payload_len := 160 }).2.handle_incoming_packet
          marking_handlers sr_buffer 100).2 :=
    reachable.incoming 1 _ sr_buffer 100
      (reachable.frame_new 0 new_session sample_environment 0
        { ssrc := 0xAA, seq := 100, timestamp := 0, payload_len := 160 }
        (reachable.constructed 0x1111 90000 _) rfl)
  have h := reachable_estimates marking_handlers quiet_bye hh hb 1 _ hr
  ⟨⟨hh, hb, hr⟩, h.1, h.2.1⟩

end uvg_rtp
